import Mathlib

/-!
Shallow embedding of the interactive-element detection engine of the
web-element-crawling repository (source file `src/unnamed/part_000`, the
`window.domTreeResult` page script).

Modelling conventions:
* JS numbers (geometry, scores, CSS pixel metrics) are embedded as `ℚ`;
  timestamps as `Int`; indices as `Nat`.
* A DOM element is a record of the host-observable data the engine reads
  (tag, attributes, computed style, geometry, listener registry) together
  with its ancestor chain (`parentElement` walks become list recursion).
* Host capabilities that are injected and not computed by the engine
  (hit testing via `elementFromPoint`, the live event-listener registry,
  `querySelectorAll` results, label text after stripping form controls)
  are carried as data fields of the element/page records.
* The pass-scoped mutable globals (`highlightIndex`,
  `processedElementAreas`) are threaded as an explicit `PassSt` state.
* Exceptions of host calls are modelled by `Option` (a detached node has
  `rect = none`); highlight rendering only mutates the visible tree and is
  dropped because it does not contribute to the returned descriptor list.
-/

namespace Crawl

-- Batteries marks the rational-number operations irreducible, which stops
-- `decide` from evaluating the embedded engine on concrete inputs; the
-- kernel itself unfolds them fine, so restore the default reducibility.
attribute [local semireducible] Rat.add Rat.sub Rat.mul Rat.inv Rat.ofScientific

/-- Whether the first character list is a prefix of the second. -/
def listPrefix : List Char → List Char → Bool
  | [], _ => true
  | _ :: _, [] => false
  | a :: as, b :: bs => a = b && listPrefix as bs

/-- Whether the first character list occurs inside the second. -/
def listInfixOf (needle : List Char) : List Char → Bool
  | [] => listPrefix needle []
  | c :: rest => listPrefix needle (c :: rest) || listInfixOf needle rest

/-- JS `hay.includes(needle)` (substring containment). -/
def strContains (needle hay : String) : Bool :=
  listInfixOf needle.data hay.data

/-- JS `s.startsWith(p)`. -/
def jsStartsWith (p s : String) : Bool :=
  listPrefix p.data s.data

/-- JS `s.trim()` (whitespace stripped from both ends). -/
def jsTrim (s : String) : String :=
  ⟨((s.data.dropWhile Char.isWhitespace).reverse.dropWhile Char.isWhitespace).reverse⟩

/-- JS `s.toLowerCase()`. -/
def jsToLower (s : String) : String :=
  ⟨s.data.map Char.toLower⟩

/-- JS `s.substring(0, n)`. -/
def jsTake (s : String) (n : Nat) : String :=
  ⟨s.data.take n⟩

/-- JS truthiness of a `getAttribute` result: `null` and `""` are falsy. -/
def truthyAttr (a : Option String) : Bool :=
  match a with
  | none => false
  | some s => s ≠ ""

/-- JS `Math.round` (round half toward positive infinity). -/
def jsRound (q : ℚ) : Int := (q + 1/2).floor

/-- A `DOMRect` as returned by `getBoundingClientRect`. -/
structure Rect where
  left : ℚ := 0
  top : ℚ := 0
  width : ℚ := 0
  height : ℚ := 0
  deriving DecidableEq

def Rect.right (r : Rect) : ℚ := r.left + r.width

def Rect.bottom (r : Rect) : ℚ := r.top + r.height

def Rect.area (r : Rect) : ℚ := r.width * r.height

/--
The host-observable view of one DOM node: everything the engine ever reads
from an element through the DOM API.  Computed-style lookups
(`getCachedComputedStyle`) are the `cursor`/`visibility`/... fields; the
bounding-box query (`getCachedBoundingRect`) is `rect` (`none` models a
detached node / throwing query).  `topHit` is the injected hit-test answer:
whether the `document.elementFromPoint` ancestor chain at the element's
center contains the element (`isTopElement`'s try/catch walk);
`topHitIframe` is the analogous answer of the double hit-test of
`isTopElementWithIframeSupport` for elements inside an iframe.
`listenerTypes` is the event-type set reported by `getEventListeners`
(live registry when available, else the inline `on*` fallback).
`nthTypePos` is the 1-based position among same-tag preceding siblings
(used by `getJSPathForElement`), and `labelStrippedText` is the host's
answer for a `<label>`'s text content after removing descendant form
controls (the clone-and-remove step of `addContextualRelationships`).
-/
structure ElemCore where
  tagName : String := "div"
  attrs : List (String × String) := []
  classes : List String := []
  className : String := ""
  textContent : String := ""
  childCount : Nat := 0
  rect : Option Rect := none
  offsetWidth : ℚ := 0
  offsetHeight : ℚ := 0
  clientWidth : ℚ := 0
  clientHeight : ℚ := 0
  scrollWidth : ℚ := 0
  scrollHeight : ℚ := 0
  scrollTop : ℚ := 0
  scrollLeft : ℚ := 0
  cursor : String := "auto"
  visibility : String := "visible"
  display : String := "block"
  opacity : String := "1"
  border : String := ""
  backgroundColor : String := "rgba(0, 0, 0, 0)"
  position : String := "static"
  overflow : String := "visible"
  overflowX : String := "visible"
  overflowY : String := "visible"
  inlineDisplay : String := ""
  zIndex : Option Int := none
  onclickProp : Bool := false
  isContentEditableProp : Bool := false
  draggableProp : Bool := false
  checkedProp : Bool := false
  listenerTypes : List String := []
  topHit : Bool := true
  topHitIframe : Bool := true
  nthTypePos : Nat := 1
  labelStrippedText : String := ""
  nodeTypeIsElement : Bool := true
  deriving DecidableEq

/-- An element together with its `parentElement` chain (nearest first). -/
structure Elem where
  core : ElemCore
  ancestors : List ElemCore := []
  deriving DecidableEq

def Elem.parent (e : Elem) : Option Elem :=
  match e.ancestors with
  | [] => none
  | a :: rest => some ⟨a, rest⟩

/-- The element followed by its ancestors, as visited by `closest`. -/
def Elem.chain (e : Elem) : List ElemCore := e.core :: e.ancestors

def getAttrC (c : ElemCore) (name : String) : Option String :=
  c.attrs.lookup name

/-- `element.getAttribute(name)` (`none` = JS `null`). -/
def getAttr (e : Elem) (name : String) : Option String :=
  getAttrC e.core name

/-- `element.hasAttribute(name)`. -/
def hasAttr (e : Elem) (name : String) : Bool :=
  (getAttr e name).isSome

/-- `element.id` (the empty string when the attribute is absent). -/
def idOfC (c : ElemCore) : String := (getAttrC c "id").getD ""

def idOf (e : Elem) : String := idOfC e.core

/-- `element.closest(sel)` truthiness for a per-node predicate. -/
def closestAny (e : Elem) (p : ElemCore → Bool) : Bool :=
  e.chain.any p

/--
The `DOM_CACHE` object: two node-keyed memo maps for bounding rects and
computed styles plus the viewport size and timestamp seen at the previous
clear decision.  Map entries are keyed by an abstract node id.
-/
structure DomCache where
  boundingRects : List (Nat × Rect) := []
  computedStyles : List (Nat × String) := []
  previousWindowW : ℚ := 0
  previousWindowH : ℚ := 0
  lastRunTimestamp : Int := 0
  deriving DecidableEq

/--
`DOM_CACHE.clearCache(force)`.  Reads the current window size and
`Date.now()`; resets both maps when forced, on a viewport size change,
or when more than 30000 ms passed since `lastRunTimestamp`; otherwise it
only refreshes the timestamp.  Returns the updated cache and the JS
return value (whether a reset happened).
-/
def clearCache (c : DomCache) (force : Bool) (currentW currentH : ℚ)
    (currentTime : Int) : DomCache × Bool :=
  if force = true ∨ currentW ≠ c.previousWindowW ∨ currentH ≠ c.previousWindowH ∨
      currentTime - c.lastRunTimestamp > 30000 then
    (⟨[], [], currentW, currentH, currentTime⟩, true)
  else
    ({ c with lastRunTimestamp := currentTime }, false)

/-- The window / `document.documentElement` metrics the engine reads. -/
structure Win where
  innerWidth : ℚ := 800
  innerHeight : ℚ := 600
  docScrollHeight : ℚ := 600
  docScrollWidth : ℚ := 800
  docClientWidth : ℚ := 800
  docClientHeight : ℚ := 600
  docScrollTop : ℚ := 0
  docScrollLeft : ℚ := 0
  pageXOffset : ℚ := 0
  pageYOffset : ℚ := 0
  deriving DecidableEq

/--
`isInViewport(element)`: expansion `-1` is the always-true sentinel,
otherwise the cached rect is compared against the window bounds expanded
by `viewportExpansion` on all sides (strict exclusion test).
-/
def isInViewport (win : Win) (viewportExpansion : ℚ) (e : Elem) : Bool :=
  if viewportExpansion = -1 then
    true
  else
    match e.core.rect with
    | none => false
    | some rect =>
      let viewportWidth := win.innerWidth
      let viewportHeight := win.innerHeight
      !(rect.bottom < -viewportExpansion ∨
        rect.top > viewportHeight + viewportExpansion ∨
        rect.right < -viewportExpansion ∨
        rect.left > viewportWidth + viewportExpansion : Bool)

/--
`isElementVisible(element)`: zero offset size is invisible except for the
hidden-file-input special case; otherwise the computed style must not hide
the element.  `inlineDisplay` is the inline `element.style.display`.
-/
def isElementVisible (e : Elem) : Bool :=
  if e.core.offsetWidth = 0 ∧ e.core.offsetHeight = 0 then
    (e.core.tagName = "input" ∧ getAttr e "type" = some "file" ∧
      (e.core.classes.contains "hidden" ∨ e.core.inlineDisplay = "none") : Bool)
  else
    (e.core.visibility ≠ "hidden" ∧ e.core.display ≠ "none" ∧
      e.core.opacity ≠ "0" : Bool)

/--
`isTopElement(element)`: requires the cached rect, that the rect meets the
actual window area, and that the hit-test chain at the rect's center
contains the element (`topHit`, with exceptions mapped to `false`).
-/
def isTopElement (win : Win) (e : Elem) : Bool :=
  match e.core.rect with
  | none => false
  | some rect =>
    let isInViewportArea :=
      (rect.left < win.innerWidth ∧ rect.right > 0 ∧
        rect.top < win.innerHeight ∧ rect.bottom > 0 : Bool)
    if !isInViewportArea then false
    else e.core.topHit

/-- The interactive cursor styles of `doesElementHaveInteractivePointer`. -/
def interactiveCursors : List String := ["pointer", "move", "text", "grab", "cell"]

def doesElementHaveInteractivePointer (e : Elem) : Bool :=
  if e.core.tagName = "html" then false
  else interactiveCursors.contains e.core.cursor

/-- The base interactive tag set of `isInteractiveElement`. -/
def interactiveElements : List String :=
  ["a", "button", "details", "embed", "input", "menu", "menuitem",
   "object", "select", "textarea", "canvas", "summary", "dialog", "banner"]

/-- The interactive role set of `isInteractiveElement`. -/
def interactiveRoles : List String :=
  ["button-icon", "dialog", "button-text-icon-only", "treeitem", "alert",
   "grid", "progressbar", "radio", "checkbox", "menuitem", "option",
   "switch", "dropdown", "scrollbar", "combobox", "a-button-text", "button",
   "region", "textbox", "tabpanel", "tab", "click", "button-text",
   "spinbutton", "a-button-inner", "link", "menu", "slider", "listbox",
   "a-dropdown-button", "button-icon-only", "searchbox", "menuitemradio",
   "tooltip", "tree", "menuitemcheckbox"]

/-- The aria-label of a node lowered, `""` when absent (for `?.` chains). -/
def ariaLabelLower (c : ElemCore) : String :=
  jsToLower ((getAttrC c "aria-label").getD "")

/--
`isInteractiveElement(element)`: the ordered rule cascade of the source,
translated branch by branch; earlier returns win.
-/
def isInteractiveElement (element : Elem) : Bool :=
  -- `element.nodeType !== Node.ELEMENT_NODE`
  if element.core.nodeTypeIsElement = false then false
  -- skip presentation elements
  else if getAttr element "role" = some "presentation" then false
  else if doesElementHaveInteractivePointer element then true
  else
    -- special handling for cookie banner elements (`closest` probes)
    let isCookieBannerElement :=
      closestAny element (fun c => strContains "onetrust" (idOfC c)) ||
      closestAny element (fun c => strContains "onetrust" c.className) ||
      closestAny element (fun c => getAttrC c "data-nosnippet" = some "true") ||
      closestAny element (fun c => strContains "cookie" ((getAttrC c "aria-label").getD ""))
    if isCookieBannerElement ∧
        (element.core.tagName = "button" ∨
         getAttr element "role" = some "button" ∨
         element.core.onclickProp = true ∨
         truthyAttr (getAttr element "onclick") = true ∨
         element.core.classes.contains "ot-sdk-button" = true ∨
         element.core.classes.contains "accept-button" = true ∨
         element.core.classes.contains "reject-button" = true ∨
         strContains "accept" (ariaLabelLower element.core) = true ∨
         strContains "reject" (ariaLabelLower element.core) = true) then true
    else
      let tagName := element.core.tagName
      let role := getAttr element "role"
      let ariaRole := getAttr element "aria-role"
      let tabIndex := getAttr element "tabindex"
      let hasAddressInputClass :=
        element.core.classes.contains "address-input__container__input" ||
        element.core.classes.contains "nav-btn" ||
        element.core.classes.contains "pull-left"
      -- enhancement capturing dropdown interactive elements
      if element.core.classes.contains "button" = true ∨
          element.core.classes.contains "dropdown-toggle" = true ∨
          truthyAttr (getAttr element "data-index") = true ∨
          getAttr element "data-toggle" = some "dropdown" ∨
          getAttr element "aria-haspopup" = some "true" then true
      else
        let hasInteractiveRole :=
          hasAddressInputClass ||
          interactiveElements.contains tagName ||
          (match role with
           | some r => interactiveRoles.contains r
           | none => false) ||
          (match ariaRole with
           | some r => interactiveRoles.contains r
           | none => false) ||
          (tabIndex.isSome && tabIndex ≠ some "-1" &&
            -- `element.parentElement?.tagName.toLowerCase() !== "body"`
            (match element.parent with
             | none => true
             | some p => p.core.tagName ≠ "body")) ||
          getAttr element "data-action" = some "a-dropdown-select" ||
          getAttr element "data-action" = some "a-dropdown-button"
        if hasInteractiveRole then true
        else
          let isCookieBanner :=
            strContains "cookie" (jsToLower (idOf element)) ||
            strContains "consent" (jsToLower (idOf element)) ||
            strContains "notice" (jsToLower (idOf element)) ||
            element.core.classes.contains "otCenterRounded" ||
            element.core.classes.contains "ot-sdk-container" ||
            getAttr element "data-nosnippet" = some "true" ||
            strContains "cookie" (ariaLabelLower element.core) ||
            strContains "consent" (ariaLabelLower element.core) ||
            (tagName = "div" &&
              (strContains "onetrust" (jsToLower (idOf element)) ||
               element.core.classes.contains "onetrust" ||
               element.core.classes.contains "cookie" ||
               element.core.classes.contains "consent"))
          if isCookieBanner then true
          else
            let isInCookieBanner :=
              closestAny element (fun c =>
                strContains "cookie" (idOfC c) || strContains "consent" (idOfC c) ||
                strContains "cookie" c.className || strContains "consent" c.className ||
                strContains "onetrust" (idOfC c))
            if isInCookieBanner ∧
                (tagName = "button" ∨ role = some "button" ∨
                 element.core.classes.contains "button" = true ∨
                 element.core.onclickProp = true ∨
                 truthyAttr (getAttr element "onclick") = true) then true
            else
              let hasClickHandler :=
                element.core.onclickProp ||
                hasAttr element "onclick" ||
                hasAttr element "ng-click" ||
                hasAttr element "@click" ||
                hasAttr element "v-on:click"
              -- `getEventListeners` outcome is the `listenerTypes` field
              let hasClickListeners :=
                element.core.listenerTypes.contains "click" ||
                element.core.listenerTypes.contains "mousedown" ||
                element.core.listenerTypes.contains "mouseup" ||
                element.core.listenerTypes.contains "touchstart" ||
                element.core.listenerTypes.contains "touchend"
              let hasAriaProps :=
                hasAttr element "aria-expanded" || hasAttr element "aria-pressed" ||
                hasAttr element "aria-selected" || hasAttr element "aria-checked"
              let isContentEditable :=
                getAttr element "contenteditable" = some "true" ||
                element.core.isContentEditableProp ||
                idOf element = "tinymce" ||
                element.core.classes.contains "mce-content-body" ||
                (tagName = "body" &&
                  (match getAttr element "data-id" with
                   | some s => jsStartsWith "mce_" s
                   | none => false))
              let isDraggable :=
                element.core.draggableProp || getAttr element "draggable" = some "true"
              hasAriaProps || hasClickHandler || hasClickListeners ||
                isDraggable || isContentEditable

/-- The tag priority table of `isDuplicateInteractiveElement`. -/
def tagPriorityList : List (String × ℚ) :=
  [("a", 10), ("button", 10), ("input", 10), ("select", 10), ("textarea", 10),
   ("canvas", 9), ("video", 9), ("audio", 9),
   ("label", 8), ("option", 8), ("fieldset", 8),
   ("summary", 9), ("details", 8), ("li", 8), ("td", 8), ("th", 8), ("tr", 7),
   ("form", 7), ("dialog", 9), ("menu", 8),
   ("div", 5), ("span", 3), ("i", 2), ("img", 7), ("p", 4), ("hr", 3), ("br", 1)]

/-- The role priority table of `isDuplicateInteractiveElement`. -/
def rolePriorityList : List (String × ℚ) :=
  [("button", 10), ("link", 10), ("menuitem", 9), ("tab", 9), ("checkbox", 9),
   ("radio", 9), ("combobox", 9), ("switch", 9), ("textbox", 9),
   ("searchbox", 9), ("spinbutton", 8), ("slider", 8),
   ("tabpanel", 8), ("dialog", 9), ("toolbar", 8), ("menu", 8), ("menubar", 8),
   ("tooltip", 7),
   ("treeitem", 8), ("listitem", 8), ("gridcell", 8), ("row", 7), ("cell", 7),
   ("presentation", 2), ("none", 1), ("img", 6)]

/--
`getElementPriority(el)`: the continuous importance score.  The JS
`if (!el) return 0` guard is handled by `Option` at the call sites; the
`if (style)` guard always holds because the computed style is part of the
element record.
-/
def getElementPriority (el : Elem) : ℚ :=
  let tag := el.core.tagName
  let role := getAttr el "role"
  let base := max ((tagPriorityList.lookup tag).getD 5)
                  ((role.bind (rolePriorityList.lookup ·)).getD 0)
  let critical :=
    (if getAttr el "contenteditable" = some "true" ∨ el.core.isContentEditableProp then (5 : ℚ) else 0) +
    (if truthyAttr (getAttr el "onclick") ∨ el.core.onclickProp then (4 : ℚ) else 0) +
    (if truthyAttr (getAttr el "href") then (if tag = "a" then (4 : ℚ) else 2) else 0)
  let aria :=
    (if truthyAttr (getAttr el "aria-expanded") then (3 : ℚ) else 0) +
    (if truthyAttr (getAttr el "aria-controls") then (3 : ℚ) else 0) +
    (if truthyAttr (getAttr el "aria-checked") then (3 : ℚ) else 0) +
    (if truthyAttr (getAttr el "aria-selected") then (3 : ℚ) else 0) +
    (if truthyAttr (getAttr el "aria-pressed") then (3 : ℚ) else 0) +
    (if truthyAttr (getAttr el "aria-haspopup") then (2 : ℚ) else 0) +
    (if truthyAttr (getAttr el "aria-label") then (1 : ℚ) else 0)
  let form :=
    (if getAttr el "type" = some "submit" ∨ getAttr el "type" = some "button" then (3 : ℚ) else 0) +
    (if truthyAttr (getAttr el "placeholder") then (1 : ℚ) else 0) +
    (if truthyAttr (getAttr el "required") then (1 : ℚ) else 0)
  let other :=
    (if getAttr el "draggable" = some "true" then (2 : ℚ) else 0) +
    (if truthyAttr (getAttr el "tabindex") ∧ getAttr el "tabindex" ≠ some "-1" then (2 : ℚ) else 0) +
    (if truthyAttr (getAttr el "data-action") then (2 : ℚ) else 0) +
    (if truthyAttr (getAttr el "data-toggle") then (2 : ℚ) else 0) +
    (if truthyAttr (getAttr el "data-target") then (1 : ℚ) else 0)
  let ident :=
    (if truthyAttr (getAttr el "id") then (1 : ℚ) else 0) +
    (if truthyAttr (getAttr el "name") then (1 : ℚ) else 0)
  let trimmed := jsTrim el.core.textContent
  let hasText := trimmed.length > 0
  let hasChildren := el.core.childCount > 0
  let content :=
    if hasText then min 2 ((trimmed.length : ℚ) / 20)
    else if (tag = "div" ∨ tag = "span") ∧ ¬hasChildren then (-3 : ℚ)
    else 0
  let styleScore :=
    (if el.core.cursor = "pointer" then (2 : ℚ) else 0) +
    (if el.core.cursor = "grab" ∨ el.core.cursor = "grabbing" then (2 : ℚ) else 0) +
    (if el.core.border ≠ "" ∧ el.core.border ≠ "none" ∧
        ¬(jsStartsWith "0" el.core.border = true) then (1/2 : ℚ) else 0) +
    (if el.core.backgroundColor ≠ "" ∧ el.core.backgroundColor ≠ "transparent" ∧
        el.core.backgroundColor ≠ "rgba(0, 0, 0, 0)" then (1/2 : ℚ) else 0) +
    -- `style.zIndex && parseInt(style.zIndex) > 1`: `none` models "auto" (NaN)
    (match el.core.zIndex with
     | some z => if z > 1 then min 1 ((z : ℚ) / 100) else 0
     | none => 0) +
    (if el.core.position = "fixed" ∨ el.core.position = "absolute" then (1 : ℚ) else 0)
  let sizeScore :=
    match el.core.rect with
    | some elRect =>
      let area := elRect.width * elRect.height
      if area > 10000 then (1 : ℚ)
      else if area < 400 ∧ tag ≠ "button" ∧ tag ≠ "input" then (-1 : ℚ)
      else 0
    | none => 0
  let cn := jsToLower el.core.className
  let classScore :=
    if strContains "btn" cn ∨ strContains "button" cn ∨ strContains "link" cn ∨
        strContains "control" cn ∨ strContains "clickable" cn ∨
        strContains "selectable" cn ∨ strContains "interactive" cn then (2 : ℚ)
    else 0
  base + critical + aria + form + other + ident + content + styleScore +
    sizeScore + classScore

/--
A `processedElementAreas` ledger entry.  The fast-path push stores the
priority and area; the final keep-push stores neither; scroll-region
pushes set `isScrollbar`.
-/
structure Area where
  left : ℚ
  top : ℚ
  right : ℚ
  bottom : ℚ
  element : Option Elem := none
  priority : Option ℚ := none
  area : Option ℚ := none
  isScrollbar : Bool := false
  deriving DecidableEq

/-- JS `processedArea.priority || getElementPriority(existingElement)` (0 is falsy). -/
def priorityOrElse (stored : Option ℚ) (recomputed : ℚ) : ℚ :=
  match stored with
  | some p => if p = 0 then recomputed else p
  | none => recomputed

/-- JS `parseInt(aZ) > parseInt(bZ) + 1` with NaN (z-index "auto") making the comparison false. -/
def zIndexGT (a b : Option Int) : Bool :=
  match a, b with
  | some x, some y => x > y + 1
  | _, _ => false

/-- JS `tagPriority[a] > tagPriority[b] + 2` with NaN (unknown tag) making the comparison false. -/
def tagPriorityGT (a b : Option ℚ) : Bool :=
  match a, b with
  | some x, some y => x > y + 2
  | _, _ => false

/--
The ancestor-containment walk of `isDuplicateInteractiveElement`
(`while (parent && !foundSignificantParent)`).  Returns `true` when the
candidate is rejected as a duplicate of an interactive ancestor; `break`
paths and an exhausted chain return `false` (the walk never edits the
ledger).
-/
def ancestorDupCheck (elementTag : String) (elementPriority elementArea : ℚ)
    (rect : Rect) (elementText : String) : List ElemCore → Bool
  | [] => false
  | p :: rest =>
    let parent : Elem := ⟨p, rest⟩
    if isInteractiveElement parent then
      match p.rect with
      | some parentRect =>
        let overlapX := max 0 (min rect.right parentRect.right - max rect.left parentRect.left)
        let overlapY := max 0 (min rect.bottom parentRect.bottom - max rect.top parentRect.top)
        let overlapArea := overlapX * overlapY
        let containmentFrac := overlapArea / elementArea
        if containmentFrac > 0.85 then
          let parentPriority := getElementPriority parent
          let priorityDiff := elementPriority - parentPriority
          let parentTag := p.tagName
          -- case 1: links inside list items - keep both (break)
          if (elementTag = "a" ∧ parentTag = "li") ∨
              (elementTag = "li" ∧ parentTag = "a") then false
          -- case 2: buttons inside forms - keep both (break)
          else if elementTag = "button" ∧ parentTag = "form" then false
          -- case 3: inputs inside labels - keep both (break)
          else if elementTag = "input" ∧ parentTag = "label" then false
          -- case 4: icons inside buttons - keep just the button
          else if (elementTag = "i" ∨ elementTag = "span") ∧
              (parentTag = "button" ∨ getAttrC p "role" = some "button") then true
          else if priorityDiff > 3 then false
          else if priorityDiff < -1 then true
          else
            let sizeFrac := elementArea / (parentRect.width * parentRect.height)
            if sizeFrac < 0.2 then false
            else
              let parentText := jsTrim p.textContent
              if elementText ≠ "" ∧ elementText ≠ parentText ∧
                  (elementText.length : ℚ) < (parentText.length : ℚ) * 0.7 then false
              else true
        else ancestorDupCheck elementTag elementPriority elementArea rect elementText rest
      | none => ancestorDupCheck elementTag elementPriority elementArea rect elementText rest
    else ancestorDupCheck elementTag elementPriority elementArea rect elementText rest

/--
The visual-duplicate loop of `isDuplicateInteractiveElement` over the
`processedElementAreas` ledger.  Returns the skip decision together with
the ledger after the `splice` edits; an early `return true` keeps the
current entry and the unvisited tail.
-/
def overlapLoop (element : Elem) (elementTag : String) (rect : Rect)
    (elementPriority elementArea : ℚ) : List Area → Bool × List Area
  | [] => (false, [])
  | pa :: rest =>
    let overlapX := max 0 (min rect.right pa.right - max rect.left pa.left)
    let overlapY := max 0 (min rect.bottom pa.bottom - max rect.top pa.top)
    if overlapX ≤ 0 ∨ overlapY ≤ 0 then
      let r := overlapLoop element elementTag rect elementPriority elementArea rest
      (r.1, pa :: r.2)
    else
      let overlapArea := overlapX * overlapY
      let processedElementArea := (pa.right - pa.left) * (pa.bottom - pa.top)
      let smallerArea := min elementArea processedElementArea
      let overlapFrac := overlapArea / smallerArea
      if overlapFrac > 0.6 then
        match pa.element with
        | none =>
          -- `if (!existingElement) continue`
          let r := overlapLoop element elementTag rect elementPriority elementArea rest
          (r.1, pa :: r.2)
        | some existingElement =>
          let existingPriority := priorityOrElse pa.priority (getElementPriority existingElement)
          let priorityDiff := elementPriority - existingPriority
          -- the comparison cascade shared by the near-identical-rect case
          let compare : Bool × List Area :=
            if priorityDiff > 2 then
              -- significantly more important: splice the existing entry, continue
              overlapLoop element elementTag rect elementPriority elementArea rest
            else if priorityDiff < -0.5 then (true, pa :: rest)
            else
              let existingTag := existingElement.core.tagName
              if (elementTag = "i" ∨ elementTag = "span") ∧
                  jsTrim element.core.textContent = "" ∧
                  (existingTag = "button" ∨
                    getAttr existingElement "role" = some "button") then
                (true, pa :: rest)
              else
                let elementText := jsTrim element.core.textContent
                let existingText := jsTrim existingElement.core.textContent
                if elementText ≠ "" ∧ existingText ≠ "" ∧
                    (existingText.length : ℚ) > (elementText.length : ℚ) * 1.5 then
                  (true, pa :: rest)
                else if elementText ≠ "" ∧ existingText ≠ "" ∧
                    (elementText.length : ℚ) > (existingText.length : ℚ) * 1.5 then
                  overlapLoop element elementTag rect elementPriority elementArea rest
                -- `tagPriority[x] > tagPriority[y] + 2` is false on unknown tags (NaN)
                else if tagPriorityGT (tagPriorityList.lookup existingTag)
                    (tagPriorityList.lookup elementTag) then (true, pa :: rest)
                else if tagPriorityGT (tagPriorityList.lookup elementTag)
                    (tagPriorityList.lookup existingTag) then
                  overlapLoop element elementTag rect elementPriority elementArea rest
                else if processedElementArea > elementArea * 3 then (true, pa :: rest)
                else if elementArea > processedElementArea * 3 then
                  overlapLoop element elementTag rect elementPriority elementArea rest
                else (true, pa :: rest)
          -- elements with identical absolute positions but different z-indices
          if |rect.left - pa.left| < 3 ∧ |rect.top - pa.top| < 3 ∧
              |rect.width - (pa.right - pa.left)| < 3 ∧
              |rect.height - (pa.bottom - pa.top)| < 3 then
            if zIndexGT element.core.zIndex
                (existingElement.core.zIndex) then
              -- this element is on top: splice the existing one, continue
              overlapLoop element elementTag rect elementPriority elementArea rest
            else if zIndexGT (existingElement.core.zIndex)
                element.core.zIndex then (true, pa :: rest)
            else compare
          else compare
      else
        let r := overlapLoop element elementTag rect elementPriority elementArea rest
        (r.1, pa :: r.2)

/--
The `isHighPriorityElement` fast-path test of
`isDuplicateInteractiveElement`: very high score, or a
contenteditable/input/textarea/select area of at least 15×15px.
-/
def isHighPriorityElement (element : Elem) (rect : Rect)
    (elementPriority : ℚ) : Bool :=
  (elementPriority ≥ 12 : Bool) ||
  (getAttr element "contenteditable" = some "true" ∧
    rect.width ≥ 15 ∧ rect.height ≥ 15 : Bool) ||
  (element.core.tagName = "input" ∧ rect.width ≥ 15 ∧ rect.height ≥ 15 : Bool) ||
  (element.core.tagName = "textarea" ∧ rect.width ≥ 15 ∧ rect.height ≥ 15 : Bool) ||
  (element.core.tagName = "select" ∧ rect.width ≥ 15 ∧ rect.height ≥ 15 : Bool)

/--
`isDuplicateInteractiveElement(element, rect)`: tiny-element rejection,
high-priority fast path, ancestor containment, then the sibling/overlap
ledger comparison.  Returns the skip decision and the updated
`processedElementAreas`.
-/
def isDuplicateInteractiveElement (element : Elem) (rect : Rect)
    (areas : List Area) : Bool × List Area :=
  -- skip tiny elements (under 5px)
  if rect.width < 5 ∨ rect.height < 5 then (true, areas)
  else
    let elementTag := element.core.tagName
    let elementPriority := getElementPriority element
    let elementArea := rect.width * rect.height
    if isHighPriorityElement element rect elementPriority then
      let entry : Area :=
        { left := rect.left, top := rect.top, right := rect.right,
          bottom := rect.bottom, element := some element,
          priority := some elementPriority, area := some elementArea }
      (false, areas ++ [entry])
    else if ancestorDupCheck elementTag elementPriority elementArea rect
        (jsTrim element.core.textContent) element.ancestors then (true, areas)
    else
      let r := overlapLoop element elementTag rect elementPriority elementArea areas
      if r.1 then (true, r.2)
      else
        let entry : Area :=
          { left := rect.left, top := rect.top, right := rect.right,
            bottom := rect.bottom, element := some element }
        (false, r.2 ++ [entry])

/--
One selector step of `getJSPathForElement`, leaf to root; an id terminates
the walk.  `CSS.escape` is modelled as the identity on the benign strings
the model uses.
-/
def jsPathWalk : List ElemCore → List String
  | [] => []
  | c :: rest =>
    if idOfC c ≠ "" then [c.tagName ++ "#" ++ idOfC c]
    else
      let classSel := String.join (c.classes.map (fun cl => "." ++ cl))
      let sel1 := c.tagName ++ classSel
      let attrsSel :=
        (match getAttrC c "name" with
         | some v => ["[name=\"" ++ v ++ "\"]"]
         | none => []) ++
        (match getAttrC c "role" with
         | some v => ["[role=\"" ++ v ++ "\"]"]
         | none => []) ++
        (match getAttrC c "aria-label" with
         | some v => if v.length < 20 then ["[aria-label=\"" ++ v ++ "\"]"] else []
         | none => [])
      let sel2 :=
        if ¬(strContains "#" sel1) ∧ ¬(strContains "." sel1) ∧ attrsSel = [] then
          if c.nthTypePos > 1 then
            sel1 ++ ":nth-of-type(" ++ toString c.nthTypePos ++ ")"
          else sel1
        else sel1
      (sel2 ++ String.join attrsSel) :: jsPathWalk rest

/-- `getJSPathForElement(element)`. -/
def getJSPathForElement (e : Elem) : String :=
  if e.core.tagName = "" then ""
  else String.intercalate " > " (jsPathWalk e.chain).reverse

/-- The fixed standard-attribute allow-list of `getElementAttributes`. -/
def standardAttributes : List String :=
  ["id", "class", "name", "type", "href", "src", "alt", "title",
   "placeholder", "value", "draggable", "required", "disabled",
   "checked", "selected", "readonly", "maxlength", "minlength",
   "max", "min", "step", "pattern", "form", "for", "tabindex",
   "target", "action", "method", "rel", "download"]

/-- The ARIA attribute allow-list of `getElementAttributes`. -/
def ariaAttributes : List String :=
  ["role", "aria-label", "aria-labelledby", "aria-describedby",
   "aria-description", "aria-details", "aria-expanded", "aria-haspopup",
   "aria-hidden", "aria-invalid", "aria-keyshortcuts", "aria-level",
   "aria-live", "aria-modal", "aria-multiline", "aria-multiselectable",
   "aria-orientation", "aria-placeholder", "aria-posinset", "aria-pressed",
   "aria-readonly", "aria-required", "aria-roledescription", "aria-selected",
   "aria-setsize", "aria-sort", "aria-valuemax", "aria-valuemin",
   "aria-valuenow", "aria-valuetext", "aria-atomic", "aria-busy",
   "aria-disabled", "aria-grabbed", "aria-activedescendant", "aria-autocomplete",
   "aria-controls", "aria-current", "aria-dropeffect", "aria-flowto",
   "aria-owns", "aria-relevant", "aria-checked"]

/-- `getElementAttributes`: the captured standard + ARIA attributes. -/
def getElementAttributes (e : Elem) : List (String × String) :=
  (standardAttributes ++ ariaAttributes).filterMap
    (fun n => (getAttr e n).map (fun v => (n, v)))

/-- The captured `data-*` attributes of `getElementAttributes`. -/
def getDataAttributes (e : Elem) : List (String × String) :=
  e.core.attrs.filter (fun p => jsStartsWith "data-" p.1)

/-- `getElementText(element)`: trimmed text content capped at 100 chars. -/
def getElementText (e : Elem) : String :=
  jsTake (jsTrim e.core.textContent) 100

structure LabelRef where
  tagName : String
  id : Option String := none
  jsPath : String
  deriving DecidableEq

structure ContextualContainer where
  tagName : String
  id : Option String := none
  role : Option String := none
  jsPath : String
  deriving DecidableEq

structure ShadowHostRef where
  tagName : String
  id : Option String := none
  xpath : String
  deriving DecidableEq

structure PlaywrightInteraction where
  action : String
  alternativeAction : Option String := none
  deriving DecidableEq

/-- The `scrollData` record of scroll-region / main-scrollbar descriptors. -/
structure ScrollData where
  hasVerticalScrollbar : Bool
  hasHorizontalScrollbar : Bool
  scrollbarWidth : ℚ
  scrollbarHeight : ℚ
  contentHeight : ℚ
  contentWidth : ℚ
  visibleHeight : ℚ
  visibleWidth : ℚ
  scrollTop : ℚ
  scrollLeft : ℚ
  maxScrollTop : ℚ
  maxScrollLeft : ℚ
  backgroundColor : Option String := none
  verticalThumb : Option (ℚ × ℚ) := none
  horizontalThumb : Option (ℚ × ℚ) := none
  isOverlayScrollbar : Option Bool := none
  deriving DecidableEq

/-- The `boundingRect` object of a descriptor (`{top, left, width, height}`). -/
structure BoundingBox where
  top : ℚ
  left : ℚ
  width : ℚ
  height : ℚ
  deriving DecidableEq

/--
One emitted descriptor.  Optional fields model JS properties that are only
assigned on some code paths.
-/
structure ElementData where
  tagName : String
  jsPath : String
  highlightIndex : Nat
  boundingRect : BoundingBox
  attributes : List (String × String) := []
  dataAttributes : List (String × String) := []
  text : String := ""
  labelText : Option String := none
  labelElement : Option LabelRef := none
  ariaLabelledbyText : Option String := none
  ariaLabelledbyElements : List LabelRef := []
  ariaDescribedbyText : Option String := none
  ariaDescribedbyElements : List LabelRef := []
  contextualContainers : List ContextualContainer := []
  playwrightInteraction : Option PlaywrightInteraction := none
  inIframe : Bool := false
  iframeId : Option String := none
  iframeXpath : Option String := none
  isIframe : Bool := false
  crossDomain : Bool := false
  inShadowDOM : Bool := false
  shadowHost : Option ShadowHostRef := none
  isHiddenFileInput : Bool := false
  visibleParentTag : Option String := none
  scrollData : Option ScrollData := none
  isMainScrollbar : Bool := false
  deriving DecidableEq

/-- `addPlaywrightInteractions(element, elementData)`: the suggested verb. -/
def addPlaywrightInteractions (element : Elem) : PlaywrightInteraction :=
  let tagName := element.core.tagName
  let elType := jsToLower ((getAttr element "type").getD "")
  let role := jsToLower ((getAttr element "role").getD "")
  let isContentEditable :=
    getAttr element "contenteditable" = some "true" ∨ element.core.isContentEditableProp
  let action :=
    if tagName = "input" then
      -- both branches of the hidden-file-input check yield `setInputFiles`
      if elType = "file" then "setInputFiles"
      else if ["text", "email", "password", "search", "tel", "url", "number"].contains elType then "fill"
      else if elType = "checkbox" then (if element.core.checkedProp then "uncheck" else "check")
      else if elType = "radio" then "check"
      else if elType = "range" then "fill"
      else if elType = "date" ∨ elType = "datetime-local" ∨ elType = "month" ∨
          elType = "time" ∨ elType = "week" then "fill"
      else if elType = "color" then "fill"
      else "fill"
    else if tagName = "textarea" then "fill"
    else if tagName = "select" then "selectOption"
    else if tagName = "a" then "click"
    else if tagName = "button" ∨ role = "button" then "click"
    else if role = "checkbox" ∨ role = "switch" then "click"
    else if role = "radio" then "click"
    else if role = "tab" then "click"
    else if role = "combobox" ∨ role = "listbox" then "click"
    else if role = "menuitem" then "click"
    else if role = "slider" then "fill"
    else if isContentEditable then "fill"
    else if tagName = "details" ∨ tagName = "summary" then "click"
    else if tagName = "dialog" then "waitFor"
    else if tagName = "canvas" then "click"
    else "click"
  let altDrag :=
    if getAttr element "draggable" = some "true" then some "drag" else none
  let alternative :=
    if truthyAttr (getAttr element "data-tooltip") ∨ truthyAttr (getAttr element "title") then
      some "hover"
    else altDrag
  ⟨action, alternative⟩

/-- The document-level lookups and configuration threaded through a pass. -/
structure Ctx where
  win : Win
  viewportExpansion : ℚ
  labelFor : String → Option Elem := fun _ => none
  byId : String → Option Elem := fun _ => none

/-- The fields produced by `addContextualRelationships`. -/
structure ContextInfo where
  labelText : Option String := none
  labelElement : Option LabelRef := none
  ariaLabelledbyText : Option String := none
  ariaLabelledbyElements : List LabelRef := []
  ariaDescribedbyText : Option String := none
  ariaDescribedbyElements : List LabelRef := []
  contextualContainers : List ContextualContainer := []
  deriving DecidableEq

/-- Splits a character list at spaces, dropping empty tokens. -/
def splitWsAux : List Char → List Char → List String
  | [], acc => if acc = [] then [] else [⟨acc.reverse⟩]
  | c :: cs, acc =>
    if c = ' ' then
      if acc = [] then splitWsAux cs []
      else (⟨acc.reverse⟩ : String) :: splitWsAux cs []
    else splitWsAux cs (c :: acc)

/-- JS `s.split(/\s+/)` restricted to space-separated id lists. -/
def splitWs (s : String) : List String :=
  splitWsAux s.data []

def labelRefOf (lab : Elem) : LabelRef :=
  { tagName := lab.core.tagName,
    id := if idOf lab = "" then none else some (idOf lab),
    jsPath := getJSPathForElement lab }

/--
The implicit-label walk of `addContextualRelationships`
(`while (parent && parent !== document.body)`); a found `<label>` reports
its text with descendant form controls removed (the clone-and-strip step,
carried as `labelStrippedText`).
-/
def implicitLabelWalk : List ElemCore → Option Elem
  | [] => none
  | p :: rest =>
    if p.tagName = "body" then none
    else if p.tagName = "label" then some ⟨p, rest⟩
    else implicitLabelWalk rest

/--
The landmark-breadcrumb walk of `addContextualRelationships`
(`while (parent && depth < maxDepth && parent !== document.body)`).
-/
def contextWalk : Nat → List ElemCore → List ContextualContainer
  | _, [] => []
  | depth, p :: rest =>
    if depth ≥ 3 ∨ p.tagName = "body" then []
    else
      let more := contextWalk (depth + 1) rest
      if (getAttrC p "role").isSome ∨
          ["header", "footer", "main", "nav", "aside", "section", "article",
            "form"].contains p.tagName then
        { tagName := p.tagName,
          id := if idOfC p = "" then none else some (idOfC p),
          role := getAttrC p "role",
          jsPath := getJSPathForElement ⟨p, rest⟩ } :: more
      else more

/-- `addContextualRelationships(element, elementData)`. -/
def addContextualRelationships (ctx : Ctx) (element : Elem) : ContextInfo :=
  let isFormControl :=
    ["input", "select", "textarea"].contains element.core.tagName
  -- method 1: explicit `label[for]`
  let m1 : Option (String × LabelRef) :=
    if isFormControl ∧ idOf element ≠ "" then
      match ctx.labelFor (idOf element) with
      | some lab => some (jsTrim lab.core.textContent, labelRefOf lab)
      | none => none
    else none
  -- method 2: enclosing implicit label (runs while `labelText` is falsy)
  let m1Falsy : Bool :=
    match m1 with
    | some (t, _) => t = ""
    | none => true
  let m2 : Option (String × LabelRef) :=
    if isFormControl ∧ m1Falsy = true then
      match implicitLabelWalk element.ancestors with
      | some lab => some (jsTrim lab.core.labelStrippedText, labelRefOf lab)
      | none => none
    else none
  let labelPair : Option (String × LabelRef) :=
    match m2 with
    | some p => some p
    | none => m1
  -- method 3: `aria-labelledby`
  let labelledby : Option (String × List LabelRef) :=
    if isFormControl ∧ hasAttr element "aria-labelledby" then
      let ids := splitWs ((getAttr element "aria-labelledby").getD "")
      let found := ids.filterMap ctx.byId
      if found.length > 0 then
        some (String.intercalate " " (found.map (fun l => jsTrim l.core.textContent)),
          found.map labelRefOf)
      else none
    else none
  -- method 4: `aria-describedby`
  let describedby : Option (String × List LabelRef) :=
    if isFormControl ∧ hasAttr element "aria-describedby" then
      let ids := splitWs ((getAttr element "aria-describedby").getD "")
      let found := ids.filterMap ctx.byId
      if found.length > 0 then
        some (String.intercalate " " (found.map (fun l => jsTrim l.core.textContent)),
          found.map labelRefOf)
      else none
    else none
  { labelText := labelPair.map (·.1),
    labelElement := labelPair.map (·.2),
    ariaLabelledbyText := labelledby.map (·.1),
    ariaLabelledbyElements := (labelledby.map (·.2)).getD [],
    ariaDescribedbyText := describedby.map (·.1),
    ariaDescribedbyElements := (describedby.map (·.2)).getD [],
    contextualContainers := contextWalk 0 element.ancestors }

/--
`createElementData(element, index)`: the base descriptor.  The bounding
rect uses the direct `getBoundingClientRect` (the `rect` field; a missing
rect degrades to the zero rect), rounded with `Math.round`.  The
interaction suggestion is computed before any hidden-file-input flag is
set, matching the source order.
-/
def createElementData (ctx : Ctx) (element : Elem) (index : Nat) : ElementData :=
  let r := element.core.rect.getD {}
  let info := addContextualRelationships ctx element
  { tagName := element.core.tagName,
    jsPath := getJSPathForElement element,
    highlightIndex := index,
    boundingRect :=
      { top := (jsRound r.top : ℚ), left := (jsRound r.left : ℚ),
        width := (jsRound r.width : ℚ), height := (jsRound r.height : ℚ) },
    attributes := getElementAttributes element,
    dataAttributes := getDataAttributes element,
    text := getElementText element,
    labelText := info.labelText,
    labelElement := info.labelElement,
    ariaLabelledbyText := info.ariaLabelledbyText,
    ariaLabelledbyElements := info.ariaLabelledbyElements,
    ariaDescribedbyText := info.ariaDescribedbyText,
    ariaDescribedbyElements := info.ariaDescribedbyElements,
    contextualContainers := info.contextualContainers,
    playwrightInteraction := some (addPlaywrightInteractions element) }

/--
`isElementInIframeViewport(element, iframe)`: composes the iframe offset
before the expanded-viewport test; a throwing rect query hits the catch
and yields `false`.
-/
def isElementInIframeViewport (ctx : Ctx) (element iframe : Elem) : Bool :=
  if ctx.viewportExpansion = -1 then true
  else
    match iframe.core.rect, element.core.rect with
    | some iframeRect, some elementRect =>
      let absoluteTop := iframeRect.top + elementRect.top
      let absoluteLeft := iframeRect.left + elementRect.left
      let absoluteBottom := absoluteTop + elementRect.height
      let absoluteRight := absoluteLeft + elementRect.width
      !(absoluteBottom < -ctx.viewportExpansion ∨
        absoluteTop > ctx.win.innerHeight + ctx.viewportExpansion ∨
        absoluteRight < -ctx.viewportExpansion ∨
        absoluteLeft > ctx.win.innerWidth + ctx.viewportExpansion : Bool)
    | _, _ => false

/--
`isTopElementWithIframeSupport(element, iframe)`: plain `isTopElement`
for main-document nodes; for nodes inside an iframe the outcome of the
double `elementFromPoint` ancestor walk (exceptions mapped to `true` by
the source's catch) is the injected `topHitIframe` answer.
-/
def isTopElementWithIframeSupport (ctx : Ctx) (element : Elem)
    (iframe : Option Elem) : Bool :=
  match iframe with
  | none => isTopElement ctx.win element
  | some _ => element.core.topHitIframe

/-- A candidate paired with its cached bounding rect. -/
structure Cand where
  element : Elem
  rect : Rect
  deriving DecidableEq

/--
The first collection pass of `processElementsInDocument`: the
viewport → visibility → topmost → interactivity filters, then the cached
rect (`if (!rect) continue`).
-/
def passesFilters (ctx : Ctx) (ifr : Option Elem) (e : Elem) : Option Cand :=
  let inVp :=
    match ifr with
    | some f => isElementInIframeViewport ctx e f
    | none => isInViewport ctx.win ctx.viewportExpansion e
  if inVp = false then none
  else if isElementVisible e = false then none
  else if isTopElementWithIframeSupport ctx e ifr = false then none
  else if isInteractiveElement e = false then none
  else
    match e.core.rect with
    | some r => some ⟨e, r⟩
    | none => none

/-- Stable insertion of a candidate by area (JS stable `Array.prototype.sort`). -/
def insertByArea (x : Cand) : List Cand → List Cand
  | [] => [x]
  | y :: ys =>
    if x.rect.width * x.rect.height < y.rect.width * y.rect.height then x :: y :: ys
    else y :: insertByArea x ys

/-- `candidateElements.sort((a, b) => areaA - areaB)`: smaller areas first, stable. -/
def sortByArea (l : List Cand) : List Cand :=
  l.foldl (fun acc c => insertByArea c acc) []

/-- The pass-scoped globals `highlightIndex` and `processedElementAreas`. -/
structure PassSt where
  idx : Nat := 0
  areas : List Area := []
  deriving DecidableEq

/-- The iframe identity fields added to descriptors emitted inside an iframe. -/
def iframeTagData (ifr : Option Elem) (d : ElementData) : ElementData :=
  match ifr with
  | none => d
  | some f =>
    { d with
        inIframe := true,
        iframeId := if idOf f = "" then none else some (idOf f),
        iframeXpath := some (getJSPathForElement f) }

/-- The shadow-host identity fields added to descriptors found in a shadow tree. -/
def shadowTagData (host : Option Elem) (d : ElementData) : ElementData :=
  match host with
  | none => d
  | some h =>
    { d with
        inShadowDOM := true,
        shadowHost := some
          { tagName := h.core.tagName,
            id := if idOf h = "" then none else some (idOf h),
            xpath := getJSPathForElement h } }

/--
The second pass of `processElementsInDocument`: run each sorted candidate
through `isDuplicateInteractiveElement`, emit the survivors with the
current `highlightIndex` and advance it.
-/
def dedupEmitLoop (ctx : Ctx) (ifr sh : Option Elem) :
    List Cand → PassSt → List ElementData × PassSt
  | [], s => ([], s)
  | c :: rest, s =>
    let r := isDuplicateInteractiveElement c.element c.rect s.areas
    if r.1 = true then dedupEmitLoop ctx ifr sh rest ⟨s.idx, r.2⟩
    else
      let d := iframeTagData ifr (shadowTagData sh (createElementData ctx c.element s.idx))
      let res := dedupEmitLoop ctx ifr sh rest ⟨s.idx + 1, r.2⟩
      (d :: res.1, res.2)

/--
The parent walk of `processHiddenFileInputs`
(`while (parentElement && parentElement !== doc.body)`).
-/
def visibleParentWalk (ctx : Ctx) (ifr : Option Elem) : List ElemCore → Option Elem
  | [] => none
  | p :: rest =>
    if p.tagName = "body" then none
    else if isTopElementWithIframeSupport ctx ⟨p, rest⟩ ifr = true ∧
        isElementVisible ⟨p, rest⟩ = true then some ⟨p, rest⟩
    else visibleParentWalk ctx ifr rest

/--
`processHiddenFileInputs(doc, iframeElement, result)`: hidden file inputs
(`doc.querySelectorAll` on the hidden-file-input selector, carried in the
document record) reported at their nearest visible parent's box.
-/
def processHiddenFileInputs (ctx : Ctx) (ifr : Option Elem) :
    List Elem → PassSt → List ElementData × PassSt
  | [], s => ([], s)
  | fi :: rest, s =>
    match visibleParentWalk ctx ifr fi.ancestors with
    | none => processHiddenFileInputs ctx ifr rest s
    | some vp =>
      let d0 := createElementData ctx fi s.idx
      let d1 :=
        match vp.core.rect with
        | some pr =>
          { d0 with boundingRect :=
            { top := (jsRound pr.top : ℚ), left := (jsRound pr.left : ℚ),
              width := (jsRound pr.width : ℚ), height := (jsRound pr.height : ℚ) } }
        | none => d0
      let d := iframeTagData ifr
        { d1 with isHiddenFileInput := true, visibleParentTag := some vp.core.tagName }
      let res := processHiddenFileInputs ctx ifr rest ⟨s.idx + 1, s.areas⟩
      (d :: res.1, res.2)

/-- A node exposing an attached shadow root, with the shadow tree's candidates. -/
structure ShadowHostEntry where
  host : Elem
  elements : List Elem := []

/--
A document's host-query results: the structural-selector candidates in
document order, the hidden-file-input matches, and the shadow hosts.
-/
structure DocPart where
  candidates : List Elem := []
  hiddenFileInputs : List Elem := []
  shadowHosts : List ShadowHostEntry := []

/--
`processShadowDOMElements(doc, iframeElement, result)`: each shadow root
is filtered, sorted and deduplicated exactly like a document, tagged with
the host identity.
-/
def processShadowDOMElements (ctx : Ctx) (ifr : Option Elem) :
    List ShadowHostEntry → PassSt → List ElementData × PassSt
  | [], s => ([], s)
  | sh :: rest, s =>
    let cands := sortByArea (sh.elements.filterMap (passesFilters ctx ifr))
    let r1 := dedupEmitLoop ctx ifr (some sh.host) cands s
    let r2 := processShadowDOMElements ctx ifr rest r1.2
    (r1.1 ++ r2.1, r2.2)

/-- `processElementsInDocument(doc, iframeElement, result)`. -/
def processElementsInDocument (ctx : Ctx) (ifr : Option Elem) (doc : DocPart)
    (s : PassSt) : List ElementData × PassSt :=
  let cands := sortByArea (doc.candidates.filterMap (passesFilters ctx ifr))
  let r1 := dedupEmitLoop ctx ifr none cands s
  let r2 := processHiddenFileInputs ctx ifr doc.hiddenFileInputs r1.2
  let r3 := processShadowDOMElements ctx ifr doc.shadowHosts r2.2
  (r1.1 ++ r2.1 ++ r3.1, r3.2)

/--
One `<iframe>` of the main document.  `accessThrows` models a
cross-origin `contentWindow.document` access throwing (the catch path);
`inner = none` models a null inner document without a throw (no action).
-/
structure IframeEntry where
  elem : Elem
  accessThrows : Bool := false
  inner : Option DocPart := none

/--
The iframe loop of `findViewportInteractiveElements`: out-of-viewport or
invisible iframes are skipped; an accessible inner document is recursed;
a throwing (cross-origin) access emits a single cross-domain descriptor
for the iframe itself when it passes interactivity.
-/
def processIframes (ctx : Ctx) : List IframeEntry → PassSt → List ElementData × PassSt
  | [], s => ([], s)
  | f :: rest, s =>
    if isInViewport ctx.win ctx.viewportExpansion f.elem = false then
      processIframes ctx rest s
    else if isElementVisible f.elem = false then
      processIframes ctx rest s
    else if f.accessThrows = true then
      if isInteractiveElement f.elem = true then
        let d := { createElementData ctx f.elem s.idx with
          isIframe := true, crossDomain := true }
        let res := processIframes ctx rest ⟨s.idx + 1, s.areas⟩
        (d :: res.1, res.2)
      else processIframes ctx rest s
    else
      match f.inner with
      | some doc =>
        let r1 := processElementsInDocument ctx (some f.elem) doc s
        let r2 := processIframes ctx rest r1.2
        (r1.1 ++ r2.1, r2.2)
      | none => processIframes ctx rest s

/-- The scrollbar-only duplicate check of `findScrollableElements`. -/
def scrollbarDupLoop (rect : Rect) : List Area → Bool
  | [] => false
  | pa :: rest =>
    if pa.isScrollbar = false then scrollbarDupLoop rect rest
    else
      let overlapX := max 0 (min rect.right pa.right - max rect.left pa.left)
      let overlapY := max 0 (min rect.bottom pa.bottom - max rect.top pa.top)
      if overlapX ≤ 0 ∨ overlapY ≤ 0 then scrollbarDupLoop rect rest
      else
        let overlapArea := overlapX * overlapY
        let elementArea := (rect.right - rect.left) * (rect.bottom - rect.top)
        let processedElementArea := (pa.right - pa.left) * (pa.bottom - pa.top)
        let smallerArea := min elementArea processedElementArea
        let overlapFrac := overlapArea / smallerArea
        if overlapFrac > 0.8 then true
        else scrollbarDupLoop rect rest

/--
The scroll-region descriptor emitted by `findScrollableElements` for one
scrollable element (thumb geometry per axis, scroll metrics, identity
attributes; a `null`-valued JS attribute is modelled as absent).
-/
def scrollRegionData (e : Elem) (rect : Rect) (idx : Nat) : ElementData :=
  let overflow := e.core.overflow
  let overflowX := e.core.overflowX
  let overflowY := e.core.overflowY
  let hasVerticalScrollbar :=
    (e.core.scrollHeight > e.core.clientHeight : Bool) &&
    (overflow = "scroll" ∨ overflow = "auto" ∨
      overflowY = "scroll" ∨ overflowY = "auto" : Bool)
  let hasHorizontalScrollbar :=
    (e.core.scrollWidth > e.core.clientWidth : Bool) &&
    (overflow = "scroll" ∨ overflow = "auto" ∨
      overflowX = "scroll" ∨ overflowX = "auto" : Bool)
  let scrollbarWidth := e.core.offsetWidth - e.core.clientWidth
  let scrollbarHeight := e.core.offsetHeight - e.core.clientHeight
  let verticalThumbHeight :=
    if hasVerticalScrollbar then
      max 30 ((e.core.clientHeight / e.core.scrollHeight) * e.core.clientHeight)
    else 0
  let verticalThumbPosition :=
    if hasVerticalScrollbar then
      (e.core.scrollTop / (e.core.scrollHeight - e.core.clientHeight)) *
        (e.core.clientHeight - verticalThumbHeight)
    else 0
  let horizontalThumbWidth :=
    if hasHorizontalScrollbar then
      max 30 ((e.core.clientWidth / e.core.scrollWidth) * e.core.clientWidth)
    else 0
  let horizontalThumbPosition :=
    if hasHorizontalScrollbar then
      (e.core.scrollLeft / (e.core.scrollWidth - e.core.clientWidth)) *
        (e.core.clientWidth - horizontalThumbWidth)
    else 0
  let scrollbarType :=
    if hasVerticalScrollbar ∧ hasHorizontalScrollbar then "both"
    else if hasVerticalScrollbar = true then "vertical"
    else if hasHorizontalScrollbar = true then "horizontal"
    else ""
  { tagName := "scrollbar:" ++ e.core.tagName ++ "-" ++ scrollbarType,
    jsPath := getJSPathForElement e ++ ":scrollbar",
    highlightIndex := idx,
    boundingRect :=
      { top := (jsRound rect.top : ℚ), left := (jsRound rect.left : ℚ),
        width := (jsRound rect.width : ℚ),
        height := (jsRound rect.height : ℚ) },
    scrollData := some
      { hasVerticalScrollbar := hasVerticalScrollbar,
        hasHorizontalScrollbar := hasHorizontalScrollbar,
        scrollbarWidth := scrollbarWidth,
        scrollbarHeight := scrollbarHeight,
        contentHeight := e.core.scrollHeight,
        contentWidth := e.core.scrollWidth,
        visibleHeight := e.core.clientHeight,
        visibleWidth := e.core.clientWidth,
        scrollTop := e.core.scrollTop,
        scrollLeft := e.core.scrollLeft,
        maxScrollTop := e.core.scrollHeight - e.core.clientHeight,
        maxScrollLeft := e.core.scrollWidth - e.core.clientWidth,
        backgroundColor := some e.core.backgroundColor,
        verticalThumb :=
          if hasVerticalScrollbar then
            some (verticalThumbHeight, verticalThumbPosition)
          else none,
        horizontalThumb :=
          if hasHorizontalScrollbar then
            some (horizontalThumbWidth, horizontalThumbPosition)
          else none },
    attributes :=
      [("role", "scrollbar"),
       ("aria-orientation",
         if hasVerticalScrollbar ∧ hasHorizontalScrollbar then "both"
         else if hasVerticalScrollbar = true then "vertical"
         else "horizontal"),
       ("elementTagName", e.core.tagName)] ++
      (if idOf e ≠ "" then [("elementId", idOf e)] else []) ++
      (if e.core.className ≠ "" then [("elementClass", e.core.className)] else []),
    text := getElementText e,
    playwrightInteraction := some ⟨"scroll", none⟩ }

/-- The scrollbar-flagged ledger entry recorded for an emitted scroll region. -/
def scrollRegionArea (e : Elem) (rect : Rect) : Area :=
  { left := rect.left, top := rect.top, right := rect.right,
    bottom := rect.bottom, element := some e, isScrollbar := true }

/--
`findScrollableElements(interactiveElements)`: scan of
`document.querySelectorAll('*')` for visible, topmost, ≥10×10 client-box
elements whose computed overflow permits scrolling and whose content
exceeds the client bounds; emits one scroll-region descriptor per such
element and records a scrollbar-flagged ledger entry.
-/
def findScrollableElements (ctx : Ctx) : List Elem → PassSt → List ElementData × PassSt
  | [], s => ([], s)
  | e :: rest, s =>
    if isInViewport ctx.win ctx.viewportExpansion e = false ∨
        isElementVisible e = false then findScrollableElements ctx rest s
    else if e.core.clientWidth < 10 ∨ e.core.clientHeight < 10 then
      findScrollableElements ctx rest s
    else
      let overflow := e.core.overflow
      let overflowX := e.core.overflowX
      let overflowY := e.core.overflowY
      let hasVerticalScrollbar :=
        (e.core.scrollHeight > e.core.clientHeight : Bool) &&
        (overflow = "scroll" ∨ overflow = "auto" ∨
          overflowY = "scroll" ∨ overflowY = "auto" : Bool)
      let hasHorizontalScrollbar :=
        (e.core.scrollWidth > e.core.clientWidth : Bool) &&
        (overflow = "scroll" ∨ overflow = "auto" ∨
          overflowX = "scroll" ∨ overflowX = "auto" : Bool)
      if hasVerticalScrollbar = false ∧ hasHorizontalScrollbar = false then
        findScrollableElements ctx rest s
      else if isTopElement ctx.win e = false then
        findScrollableElements ctx rest s
      else
        let scrollbarWidth := e.core.offsetWidth - e.core.clientWidth
        let scrollbarHeight := e.core.offsetHeight - e.core.clientHeight
        if (hasVerticalScrollbar = true ∧ scrollbarWidth < 1) ∨
            (hasHorizontalScrollbar = true ∧ scrollbarHeight < 1) then
          findScrollableElements ctx rest s
        else
          -- the thumb geometry and orientation are assembled in `scrollRegionData`
          match e.core.rect with
          | none => findScrollableElements ctx rest s
          | some rect =>
            if scrollbarDupLoop rect s.areas = true then
              findScrollableElements ctx rest s
            else
              let res := findScrollableElements ctx rest
                ⟨s.idx + 1, s.areas ++ [scrollRegionArea e rect]⟩
              (scrollRegionData e rect s.idx :: res.1, res.2)

/-- The synthetic main vertical-scrollbar descriptor of `findMainBrowserScrollbars`. -/
def mainVerticalScrollbarData (win : Win) (idx : Nat) : ElementData :=
  let verticalScrollbarWidth := win.innerWidth - win.docClientWidth
  let thumbHeight := max 40 ((win.innerHeight / win.docScrollHeight) * win.innerHeight)
  -- `... || 0` recovers 0/0; a positive numerator cannot occur under the guard
  let scrollPercentage := win.docScrollTop / (win.docScrollHeight - win.innerHeight)
  let thumbPosition := scrollPercentage * (win.innerHeight - thumbHeight)
  let displayWidth := max verticalScrollbarWidth 8
  { tagName := "scrollbar:main-vertical",
    jsPath := "document.documentElement:vertical-scrollbar",
    highlightIndex := idx,
    boundingRect :=
      { top := 0, left := win.innerWidth - displayWidth,
        width := displayWidth, height := win.innerHeight },
    scrollData := some
      { hasVerticalScrollbar := true, hasHorizontalScrollbar := false,
        scrollbarWidth := verticalScrollbarWidth, scrollbarHeight := 0,
        contentHeight := win.docScrollHeight, contentWidth := win.docScrollWidth,
        visibleHeight := win.innerHeight, visibleWidth := win.innerWidth,
        scrollTop := win.docScrollTop, scrollLeft := win.docScrollLeft,
        maxScrollTop := win.docScrollHeight - win.innerHeight,
        maxScrollLeft := win.docScrollWidth - win.innerWidth,
        verticalThumb := some (thumbHeight, thumbPosition),
        horizontalThumb := none,
        isOverlayScrollbar := some (verticalScrollbarWidth = 0 : Bool) },
    attributes := [("role", "scrollbar"), ("aria-orientation", "vertical")],
    text := "",
    isMainScrollbar := true }

/-- The synthetic main horizontal-scrollbar descriptor of `findMainBrowserScrollbars`. -/
def mainHorizontalScrollbarData (win : Win) (idx : Nat) : ElementData :=
  let horizontalScrollbarHeight := win.innerHeight - win.docClientHeight
  let thumbWidth := max 40 ((win.innerWidth / win.docScrollWidth) * win.innerWidth)
  let scrollPercentage := win.docScrollLeft / (win.docScrollWidth - win.innerWidth)
  let thumbPosition := scrollPercentage * (win.innerWidth - thumbWidth)
  let displayHeight := max horizontalScrollbarHeight 8
  { tagName := "scrollbar:main-horizontal",
    jsPath := "document.documentElement:horizontal-scrollbar",
    highlightIndex := idx,
    boundingRect :=
      { top := win.innerHeight - displayHeight, left := 0,
        width := win.innerWidth, height := displayHeight },
    scrollData := some
      { hasVerticalScrollbar := false, hasHorizontalScrollbar := true,
        scrollbarWidth := 0, scrollbarHeight := horizontalScrollbarHeight,
        contentHeight := win.docScrollHeight, contentWidth := win.docScrollWidth,
        visibleHeight := win.innerHeight, visibleWidth := win.innerWidth,
        scrollTop := win.docScrollTop, scrollLeft := win.docScrollLeft,
        maxScrollTop := win.docScrollHeight - win.innerHeight,
        maxScrollLeft := win.docScrollWidth - win.innerWidth,
        verticalThumb := none,
        horizontalThumb := some (thumbWidth, thumbPosition),
        isOverlayScrollbar := some (horizontalScrollbarHeight = 0 : Bool) },
    attributes := [("role", "scrollbar"), ("aria-orientation", "horizontal")],
    text := "",
    isMainScrollbar := true }

/--
`findMainBrowserScrollbars(interactiveElements)`: up to two synthetic
descriptors derived purely from the document scroll metrics.
-/
def findMainBrowserScrollbars (win : Win) (s : PassSt) : List ElementData × PassSt :=
  let hasVerticalScrollbar := (win.docScrollHeight > win.innerHeight : Bool)
  let verticalScrollbarWidth := win.innerWidth - win.docClientWidth
  let hasHorizontalScrollbar := (win.docScrollWidth > win.innerWidth : Bool)
  let horizontalScrollbarHeight := win.innerHeight - win.docClientHeight
  let r1 :=
    if hasVerticalScrollbar = true ∧ verticalScrollbarWidth ≥ 0 then
      ([mainVerticalScrollbarData win s.idx], PassSt.mk (s.idx + 1) s.areas)
    else ([], s)
  let r2 :=
    if hasHorizontalScrollbar = true ∧ horizontalScrollbarHeight ≥ 0 then
      ([mainHorizontalScrollbarData win r1.2.idx], PassSt.mk (r1.2.idx + 1) r1.2.areas)
    else ([], r1.2)
  (r1.1 ++ r2.1, r2.2)

/--
The whole page as observed through the injected host capabilities:
window metrics, the main document's query results, the iframes, the
all-element scan list, and the document-level lookups used for labels.
`websiteInfo` is the metadata snapshot `getWebsiteInfo` reads from the
document head and body.
-/
structure Page where
  win : Win := {}
  mainDoc : DocPart := {}
  iframes : List IframeEntry := []
  allElements : List Elem := []
  labelFor : String → Option Elem := fun _ => none
  byId : String → Option Elem := fun _ => none
  url : String := ""
  websiteInfo : List (String × String) := []

def mkCtx (viewportExpansion : ℚ) (page : Page) : Ctx :=
  ⟨page.win, viewportExpansion, page.labelFor, page.byId⟩

/--
`findViewportInteractiveElements()`: clears the highlight container (a
visible-tree mutation with no effect on the returned list), resets the
pass-scoped globals (`highlightIndex = 0`,
`processedElementAreas.length = 0` - the `leftover` state is discarded),
then sequences main document, iframes, element scroll regions and main
scrollbars into one descriptor list.
-/
def findViewportInteractiveElements (viewportExpansion : ℚ) (page : Page)
    (_leftover : PassSt) : List ElementData × PassSt :=
  let ctx := mkCtx viewportExpansion page
  let s0 : PassSt := ⟨0, []⟩
  let r1 := processElementsInDocument ctx none page.mainDoc s0
  let r2 := processIframes ctx page.iframes r1.2
  let r3 := findScrollableElements ctx page.allElements r2.2
  let r4 := findMainBrowserScrollbars ctx.win r3.2
  (r1.1 ++ r2.1 ++ r3.1 ++ r4.1, r4.2)

/-- The four recognized configuration options of `window.domTreeResult`. -/
structure DomTreeArgs where
  doHighlightElements : Bool := false
  focusHighlightIndex : Int := -1
  viewportExpansion : ℚ := 0
  debugMode : Bool := false

/-- The returned record of `window.domTreeResult`. -/
structure DomTreeOutput where
  url : String
  websiteInfo : List (String × String)
  timestamp : Int
  viewportW : ℚ
  viewportH : ℚ
  scrollX : ℚ
  scrollY : ℚ
  interactiveElements : List ElementData

/-- `getWebsiteInfo()`: a pure read of the host's document metadata. -/
def getWebsiteInfo (page : Page) : List (String × String) := page.websiteInfo

/--
`window.domTreeResult(args)`: conditional cache clear, the analysis pass,
the metadata snapshot and the final record.  `doHighlightElements`,
`focusHighlightIndex` and `debugMode` only drive overlay rendering and
console logging and never reach the returned descriptor list.
-/
def domTreeResult (args : DomTreeArgs) (page : Page) (cache : DomCache)
    (leftover : PassSt) (now : Int) : DomTreeOutput × DomCache :=
  let c := clearCache cache false page.win.innerWidth page.win.innerHeight now
  let interactiveElements :=
    (findViewportInteractiveElements args.viewportExpansion page leftover).1
  let websiteInfo := getWebsiteInfo page
  ({ url := page.url, websiteInfo := websiteInfo, timestamp := now,
     viewportW := page.win.innerWidth, viewportH := page.win.innerHeight,
     scrollX := page.win.pageXOffset, scrollY := page.win.pageYOffset,
     interactiveElements := interactiveElements }, c.1)

/-! Concrete pages and elements used by counterexamples and witnesses. -/

/-- A non-interactive `<div>` parent shared by two overlapping siblings. -/
def siblingParent : ElemCore := { tagName := "div" }

/-- A 40×40 `<div>` sibling with pointer cursor (priority 71/10). -/
def smallLowScorer : Elem where
  core := { tagName := "div"
            textContent := "hi"
            rect := some ⟨0, 0, 40, 40⟩
            offsetWidth := 40
            offsetHeight := 40
            cursor := "pointer" }
  ancestors := [siblingParent]

/-- A 100×100 `<a>` sibling fully covering the small one (priority 107/10). -/
def largeHighScorer : Elem where
  core := { tagName := "a"
            textContent := "Link text here"
            rect := some ⟨0, 0, 100, 100⟩
            offsetWidth := 100
            offsetHeight := 100 }
  ancestors := [siblingParent]

/-- The page with the two overlapping siblings, higher scorer larger. -/
def overlapPairPage : Page :=
  { mainDoc := { candidates := [smallLowScorer, largeHighScorer] } }

/-- A 40×40 `<a>` sibling (priority 107/10), the smaller of its pair. -/
def smallHighScorer : Elem where
  core := { tagName := "a"
            textContent := "Link text here"
            rect := some ⟨0, 0, 40, 40⟩
            offsetWidth := 40
            offsetHeight := 40 }
  ancestors := [siblingParent]

/-- A 100×100 `<div>` sibling with pointer cursor (priority 71/10). -/
def largeLowScorer : Elem where
  core := { tagName := "div"
            textContent := "hi"
            rect := some ⟨0, 0, 100, 100⟩
            offsetWidth := 100
            offsetHeight := 100
            cursor := "pointer" }
  ancestors := [siblingParent]

/-- Whether some strict ancestor of the chain is itself classified interactive. -/
def anyInteractiveAncestor : List ElemCore → Bool
  | [] => false
  | p :: rest => isInteractiveElement ⟨p, rest⟩ || anyInteractiveAncestor rest

/-- A page holding exactly two sibling candidates in document order. -/
def siblingPairPage (win : Win) (a b : Elem) : Page :=
  { win := win, mainDoc := { candidates := [a, b] } }

/-- A visible interactive button whose rect lies below the 800×600 window. -/
def offscreenButton : Elem where
  core := { tagName := "button"
            rect := some ⟨0, 1000, 50, 50⟩
            offsetWidth := 50
            offsetHeight := 50 }
  ancestors := []

def offscreenButtonPage : Page := { mainDoc := { candidates := [offscreenButton] } }

/-- A 4×20 button with a click handler: priority 14, yet under 5px wide. -/
def tinyHighScoreButton : Elem where
  core := { tagName := "button"
            onclickProp := true
            rect := some ⟨0, 0, 4, 20⟩
            offsetWidth := 4
            offsetHeight := 20 }
  ancestors := []

/-- A 20×20 button with a click handler: priority 14. -/
def smallScore14Button : Elem where
  core := { tagName := "button"
            onclickProp := true
            rect := some ⟨0, 0, 20, 20⟩
            offsetWidth := 20
            offsetHeight := 20 }
  ancestors := []

/-- A scrollable region: content 2000, client 400, 15px scrollbar gutter. -/
def scrollRegion : Elem where
  core := { tagName := "div"
            clientWidth := 300
            clientHeight := 400
            scrollWidth := 300
            scrollHeight := 2000
            offsetWidth := 315
            offsetHeight := 400
            overflowY := "auto"
            rect := some ⟨0, 0, 315, 400⟩ }
  ancestors := []

/-- The same scrollable region with a zero-width overlay scrollbar gutter. -/
def overlayScrollRegion : Elem where
  core := { tagName := "div"
            clientWidth := 300
            clientHeight := 400
            scrollWidth := 300
            scrollHeight := 2000
            offsetWidth := 300
            offsetHeight := 400
            overflowY := "auto"
            rect := some ⟨0, 0, 300, 400⟩ }
  ancestors := []

/-- A visible iframe made interactive by its pointer cursor. -/
def crossOriginIframe : Elem where
  core := { tagName := "iframe"
            cursor := "pointer"
            rect := some ⟨10, 10, 100, 100⟩
            offsetWidth := 100
            offsetHeight := 100 }
  ancestors := []

/-- A perfectly good button living inside the cross-origin iframe. -/
def crossOriginInnerButton : Elem where
  core := { tagName := "button"
            rect := some ⟨0, 0, 50, 50⟩
            offsetWidth := 50
            offsetHeight := 50 }
  ancestors := []

/-- A populated cache last cleared at time 0 with an 800×600 viewport. -/
def populatedCache : DomCache :=
  ⟨[(0, ⟨1, 2, 3, 4⟩)], [(0, "style0")], 800, 600, 0⟩

/-- A button with `role="presentation"` but every interactive marker set. -/
def presentationButton : Elem where
  core := { tagName := "button"
            attrs := [("role", "presentation"), ("onclick", "go()"),
                      ("aria-expanded", "true"), ("draggable", "true"),
                      ("contenteditable", "true"), ("tabindex", "0")]
            classes := ["button", "clickable"]
            className := "button clickable"
            cursor := "pointer"
            onclickProp := true
            isContentEditableProp := true
            draggableProp := true
            listenerTypes := ["click", "mousedown"]
            rect := some ⟨0, 0, 50, 50⟩
            offsetWidth := 50
            offsetHeight := 50 }
  ancestors := []

/-! Index-contiguity machinery shared by the highlight-index theorems. -/

/--
A stage of the pass emits descriptors whose `highlightIndex` values are
consecutive from the incoming counter, and advances the counter by the
number of emitted descriptors.
-/
def IndexChain (f : PassSt → List ElementData × PassSt) : Prop :=
  ∀ s : PassSt,
    (f s).1.map ElementData.highlightIndex = List.range' s.idx (f s).1.length ∧
    (f s).2.idx = s.idx + (f s).1.length

theorem range'_add_append (s n m : Nat) :
    List.range' s n ++ List.range' (s + n) m = List.range' s (n + m) := by
  have h := List.range'_append s n m 1
  simp only [one_mul, Nat.mul_one] at h
  rw [h, Nat.add_comm n m]

theorem iframeTagData_highlightIndex (ifr : Option Elem) (d : ElementData) :
    (iframeTagData ifr d).highlightIndex = d.highlightIndex := by
  cases ifr <;> rfl

theorem shadowTagData_highlightIndex (sh : Option Elem) (d : ElementData) :
    (shadowTagData sh d).highlightIndex = d.highlightIndex := by
  cases sh <;> rfl

theorem createElementData_highlightIndex (ctx : Ctx) (e : Elem) (i : Nat) :
    (createElementData ctx e i).highlightIndex = i := rfl

theorem indexChain_seq {f g : PassSt → List ElementData × PassSt}
    (hf : IndexChain f) (hg : IndexChain g) :
    IndexChain (fun s => ((f s).1 ++ (g (f s).2).1, (g (f s).2).2)) := by
  intro s
  obtain ⟨hf1, hf2⟩ := hf s
  obtain ⟨hg1, hg2⟩ := hg (f s).2
  refine ⟨?_, ?_⟩
  · rw [List.map_append, hf1, hg1, hf2, List.length_append,
      range'_add_append]
  · rw [hg2, hf2, List.length_append, Nat.add_assoc]

theorem indexChain_dedupEmitLoop (ctx : Ctx) (ifr sh : Option Elem)
    (cands : List Cand) :
    IndexChain (fun s => dedupEmitLoop ctx ifr sh cands s) := by
  induction cands with
  | nil => intro s; exact ⟨rfl, rfl⟩
  | cons c rest ih =>
    intro s
    simp only [dedupEmitLoop]
    split
    · exact ih ⟨s.idx, (isDuplicateInteractiveElement c.element c.rect s.areas).2⟩
    · obtain ⟨ih1, ih2⟩ :=
        ih ⟨s.idx + 1, (isDuplicateInteractiveElement c.element c.rect s.areas).2⟩
      refine ⟨?_, ?_⟩
      · simp only [List.map_cons, List.length_cons, iframeTagData_highlightIndex,
          shadowTagData_highlightIndex, createElementData_highlightIndex, ih1,
          List.range'_succ]
      · simp only [List.length_cons, ih2]
        omega

theorem indexChain_processHiddenFileInputs (ctx : Ctx) (ifr : Option Elem)
    (inputs : List Elem) :
    IndexChain (fun s => processHiddenFileInputs ctx ifr inputs s) := by
  induction inputs with
  | nil => intro s; exact ⟨rfl, rfl⟩
  | cons fi rest ih =>
    intro s
    simp only [processHiddenFileInputs]
    split
    · exact ih s
    · rename_i vp hvp
      obtain ⟨ih1, ih2⟩ := ih ⟨s.idx + 1, s.areas⟩
      refine ⟨?_, ?_⟩
      · have hhd : (iframeTagData ifr
            { (match vp.core.rect with
               | some pr =>
                 { createElementData ctx fi s.idx with boundingRect :=
                   { top := (jsRound pr.top : ℚ), left := (jsRound pr.left : ℚ),
                     width := (jsRound pr.width : ℚ), height := (jsRound pr.height : ℚ) } }
               | none => createElementData ctx fi s.idx) with
              isHiddenFileInput := true,
              visibleParentTag := some vp.core.tagName }).highlightIndex = s.idx := by
          rw [iframeTagData_highlightIndex]
          cases vp.core.rect <;> rfl
        simp only [List.map_cons, List.length_cons, hhd, ih1, List.range'_succ]
      · simp only [List.length_cons, ih2]
        omega

theorem indexChain_processShadowDOMElements (ctx : Ctx) (ifr : Option Elem)
    (hosts : List ShadowHostEntry) :
    IndexChain (fun s => processShadowDOMElements ctx ifr hosts s) := by
  induction hosts with
  | nil => intro s; exact ⟨rfl, rfl⟩
  | cons sh rest ih =>
    intro s
    simp only [processShadowDOMElements]
    obtain ⟨a1, b1⟩ := indexChain_dedupEmitLoop ctx ifr (some sh.host)
      (sortByArea (sh.elements.filterMap (passesFilters ctx ifr))) s
    obtain ⟨a2, b2⟩ := ih (dedupEmitLoop ctx ifr (some sh.host)
      (sortByArea (sh.elements.filterMap (passesFilters ctx ifr))) s).2
    refine ⟨?_, ?_⟩
    · rw [List.map_append, a1, a2, b1, List.length_append, range'_add_append]
    · rw [b2, b1, List.length_append, Nat.add_assoc]

theorem indexChain_processElementsInDocument (ctx : Ctx) (ifr : Option Elem)
    (doc : DocPart) :
    IndexChain (fun s => processElementsInDocument ctx ifr doc s) := by
  have h := indexChain_seq (indexChain_seq
    (indexChain_dedupEmitLoop ctx ifr none
      (sortByArea (doc.candidates.filterMap (passesFilters ctx ifr))))
    (indexChain_processHiddenFileInputs ctx ifr doc.hiddenFileInputs))
    (indexChain_processShadowDOMElements ctx ifr doc.shadowHosts)
  intro s
  exact h s

theorem indexChain_processIframes (ctx : Ctx) (iframes : List IframeEntry) :
    IndexChain (fun s => processIframes ctx iframes s) := by
  induction iframes with
  | nil => intro s; exact ⟨rfl, rfl⟩
  | cons f rest ih =>
    intro s
    simp only [processIframes]
    split
    · exact ih s
    split
    · exact ih s
    split
    · split
      · obtain ⟨ih1, ih2⟩ := ih ⟨s.idx + 1, s.areas⟩
        refine ⟨?_, ?_⟩
        · simp only [List.map_cons, List.length_cons, ih1, List.range'_succ]
          rfl
        · simp only [List.length_cons, ih2]
          omega
      · exact ih s
    · split
      · rename_i doc hdoc
        obtain ⟨a1, b1⟩ := indexChain_processElementsInDocument ctx (some f.elem) doc s
        obtain ⟨a2, b2⟩ := ih (processElementsInDocument ctx (some f.elem) doc s).2
        refine ⟨?_, ?_⟩
        · rw [List.map_append, a1, a2, b1, List.length_append, range'_add_append]
        · rw [b2, b1, List.length_append, Nat.add_assoc]
      · exact ih s

theorem scrollRegionData_highlightIndex (e : Elem) (rect : Rect) (idx : Nat) :
    (scrollRegionData e rect idx).highlightIndex = idx := rfl

theorem indexChain_findScrollableElements (ctx : Ctx) (elems : List Elem) :
    IndexChain (fun s => findScrollableElements ctx elems s) := by
  induction elems with
  | nil => intro s; exact ⟨rfl, rfl⟩
  | cons e rest ih =>
    intro s
    simp only [findScrollableElements]
    split
    · exact ih s
    split
    · exact ih s
    split
    · exact ih s
    split
    · exact ih s
    split
    · exact ih s
    split
    · exact ih s
    · rename_i rect hrect
      split
      · exact ih s
      · obtain ⟨ih1, ih2⟩ := ih ⟨s.idx + 1, s.areas ++ [scrollRegionArea e rect]⟩
        refine ⟨?_, ?_⟩
        · simp only [List.map_cons, List.length_cons, ih1, List.range'_succ,
            scrollRegionData_highlightIndex]
        · simp only [List.length_cons, ih2]
          omega

theorem mainVerticalScrollbarData_highlightIndex (win : Win) (idx : Nat) :
    (mainVerticalScrollbarData win idx).highlightIndex = idx := rfl

theorem mainHorizontalScrollbarData_highlightIndex (win : Win) (idx : Nat) :
    (mainHorizontalScrollbarData win idx).highlightIndex = idx := rfl

theorem indexChain_findMainBrowserScrollbars (win : Win) :
    IndexChain (fun s => findMainBrowserScrollbars win s) := by
  intro s
  simp only [findMainBrowserScrollbars]
  split
  · split
    · refine ⟨?_, rfl⟩
      simp only [List.cons_append, List.nil_append, List.append_nil,
        List.map_cons, List.map_nil, List.length_cons, List.length_nil,
        mainVerticalScrollbarData_highlightIndex,
        mainHorizontalScrollbarData_highlightIndex, List.range'_succ, List.range']
    · refine ⟨?_, rfl⟩
      simp only [List.cons_append, List.nil_append, List.append_nil,
        List.map_cons, List.map_nil, List.length_cons, List.length_nil,
        mainVerticalScrollbarData_highlightIndex, List.range'_succ, List.range']
  · split
    · refine ⟨?_, rfl⟩
      simp only [List.cons_append, List.nil_append, List.append_nil,
        List.map_cons, List.map_nil, List.length_cons, List.length_nil,
        mainHorizontalScrollbarData_highlightIndex, List.range'_succ, List.range']
    · exact ⟨rfl, rfl⟩

/--
Claim C6: in the result of any single pass, the `highlightIndex` values
over all emitted descriptors (ordinary elements, cross-origin iframe
placeholders, hidden-file-input proxies, element scroll regions, and main
viewport scrollbars) form a contiguous 0-based range `0..n-1` with no gaps
and no duplicates, assigned in discovery order.
-/
theorem highlightIndex_contiguous (viewportExpansion : ℚ) (page : Page)
    (leftover : PassSt) :
    (findViewportInteractiveElements viewportExpansion page leftover).1.map
        ElementData.highlightIndex =
      List.range
        (findViewportInteractiveElements viewportExpansion page leftover).1.length := by
  have h := indexChain_seq (indexChain_seq (indexChain_seq
    (indexChain_processElementsInDocument (mkCtx viewportExpansion page) none
      page.mainDoc)
    (indexChain_processIframes (mkCtx viewportExpansion page) page.iframes))
    (indexChain_findScrollableElements (mkCtx viewportExpansion page)
      page.allElements))
    (indexChain_findMainBrowserScrollbars (mkCtx viewportExpansion page).win)
  obtain ⟨ha, _⟩ := h ⟨0, []⟩
  rw [List.range_eq_range']
  exact ha

/--
Claim C7: for every element whose `role` attribute equals
`"presentation"`, `isInteractiveElement` returns `false`, regardless of
every other property of the element; the first rule of the ordered
cascade wins over all later rules.
-/
theorem role_presentation_not_interactive (e : Elem)
    (h : getAttr e "role" = some "presentation") :
    isInteractiveElement e = false := by
  unfold isInteractiveElement
  rw [if_pos h]
  split <;> rfl

/--
Witness for C7: a button with a pointer cursor, click handler, listener
registry entries, ARIA state, draggable and contenteditable markers is
still classified not interactive under `role="presentation"`.
-/
theorem role_presentation_not_interactive_witness :
    isInteractiveElement presentationButton = false :=
  role_presentation_not_interactive presentationButton (by decide)

/--
Claim C8: running the whole analysis pass twice against an identical,
unmodified tree and viewport (the injected host capabilities returning
the same answers both times) produces identical ordered descriptor lists:
the leftover pass state and the cache/timestamp of the first run never
influence the second run's descriptor list.
-/
theorem pass_rerun_identical (args : DomTreeArgs) (page : Page)
    (cache : DomCache) (s1 s2 : PassSt) (t1 t2 : Int) :
    (findViewportInteractiveElements args.viewportExpansion page s1).1 =
        (findViewportInteractiveElements args.viewportExpansion page s2).1 ∧
      (domTreeResult args page cache s1 t1).1.interactiveElements =
        (domTreeResult args page
          ((domTreeResult args page cache s1 t1).2) s2 t2).1.interactiveElements :=
  ⟨rfl, rfl⟩

/--
Claim C10: every candidate element whose bounding rectangle has width
less than 5 pixels or height less than 5 pixels is classified as a
duplicate by `isDuplicateInteractiveElement` (leaving the ledger
untouched), and is therefore never emitted as an ordinary element
descriptor by the dedup-emit loop.
-/
theorem tiny_element_always_duplicate (ctx : Ctx) (ifr sh : Option Elem)
    (e : Elem) (r : Rect) (s : PassSt) (h : r.width < 5 ∨ r.height < 5) :
    isDuplicateInteractiveElement e r s.areas = (true, s.areas) ∧
      dedupEmitLoop ctx ifr sh [⟨e, r⟩] s = ([], s) := by
  have h1 : isDuplicateInteractiveElement e r s.areas = (true, s.areas) := by
    unfold isDuplicateInteractiveElement
    rw [if_pos h]
  refine ⟨h1, ?_⟩
  simp only [dedupEmitLoop, h1]
  rfl

/--
Witness for C10: a 4×20 button with priority 14 is dropped by the
tiny-element check and produces no descriptor.
-/
theorem tiny_element_always_duplicate_witness :
    isDuplicateInteractiveElement tinyHighScoreButton ⟨0, 0, 4, 20⟩ [] = (true, []) ∧
      dedupEmitLoop (mkCtx 0 {}) none none
        [⟨tinyHighScoreButton, ⟨0, 0, 4, 20⟩⟩] {} = ([], {}) :=
  tiny_element_always_duplicate (mkCtx 0 {}) none none tinyHighScoreButton
    ⟨0, 0, 4, 20⟩ {} (by decide)

/--
Counterexample to claim C1 as stated: a 4×20 button with a click handler
scores 14 (≥ 12), yet `isDuplicateInteractiveElement` returns `true` for
it, because the tiny-element rejection (width or height under 5px) runs
before the high-priority fast path.
-/
theorem score12_tiny_element_rejected :
    12 ≤ getElementPriority tinyHighScoreButton ∧
      (isDuplicateInteractiveElement tinyHighScoreButton ⟨0, 0, 4, 20⟩ []).1 = true := by
  decide

/--
Claim C1 (amended): for every candidate whose rect is at least 5px in both
dimensions and whose priority score is at least 12,
`isDuplicateInteractiveElement` returns `false` unconditionally - the
element is only recorded in the processed-area ledger (with its priority
and area) for future comparisons, regardless of any interactive ancestor
containing it.
-/
theorem score12_fast_path_keeps (e : Elem) (r : Rect) (areas : List Area)
    (hw : 5 ≤ r.width) (hh : 5 ≤ r.height)
    (hp : 12 ≤ getElementPriority e) :
    isDuplicateInteractiveElement e r areas =
      (false, areas ++
        [{ left := r.left
           top := r.top
           right := r.right
           bottom := r.bottom
           element := some e
           priority := some (getElementPriority e)
           area := some (r.width * r.height) }]) := by
  simp only [isDuplicateInteractiveElement]
  rw [if_neg (by
    rintro (hlt | hlt)
    · exact absurd hlt (not_lt.2 hw)
    · exact absurd hlt (not_lt.2 hh))]
  rw [if_pos (by simp [isHighPriorityElement, ge_iff_le, hp])]

/--
Witness for the amended C1: a 20×20 button with a click handler scores 14
and is kept by the fast path.
-/
theorem score12_fast_path_keeps_witness :
    12 ≤ getElementPriority smallScore14Button ∧
      (isDuplicateInteractiveElement smallScore14Button ⟨0, 0, 20, 20⟩ []).1 = false :=
  ⟨by decide, by
    rw [score12_fast_path_keeps smallScore14Button ⟨0, 0, 20, 20⟩ []
      (by decide) (by decide) (by decide)]⟩

/--
Counterexample to claim C2 as stated: two sibling candidates whose rects
overlap by 100% of the smaller one's area and whose priorities differ by
36/10 (> 2) both appear in the pass result when the higher scorer is the
larger element - the smaller, lower-scoring sibling was already emitted
before the ledger entry was replaced, so the descriptor list has two
entries for the pair, not one.
-/
theorem overlap_higher_scorer_larger_keeps_both :
    smallLowScorer.ancestors = largeHighScorer.ancestors ∧
      smallLowScorer.core.rect = some ⟨0, 0, 40, 40⟩ ∧
      largeHighScorer.core.rect = some ⟨0, 0, 100, 100⟩ ∧
      getElementPriority largeHighScorer - getElementPriority smallLowScorer > 2 ∧
      (findViewportInteractiveElements 0 overlapPairPage {}).1.map
        (fun d => d.tagName) = ["div", "a"] := by
  decide

theorem passesFilters_some (ctx : Ctx) (e : Elem) (r : Rect)
    (hv : isInViewport ctx.win ctx.viewportExpansion e = true)
    (hvis : isElementVisible e = true)
    (ht : isTopElement ctx.win e = true)
    (hint : isInteractiveElement e = true)
    (hr : e.core.rect = some r) :
    passesFilters ctx none e = some ⟨e, r⟩ := by
  unfold passesFilters isTopElementWithIframeSupport
  simp [hv, hvis, ht, hint, hr]

theorem ancestorDupCheck_no_interactive (tag : String) (p a : ℚ) (r : Rect)
    (t : String) (l : List ElemCore) :
    anyInteractiveAncestor l = false → ancestorDupCheck tag p a r t l = false := by
  induction l with
  | nil => intro _; rfl
  | cons c rest ih =>
    intro h
    simp only [anyInteractiveAncestor, Bool.or_eq_false_iff] at h
    simp only [ancestorDupCheck]
    rw [if_neg (by rw [h.1]; exact fun hk => Bool.noConfusion hk)]
    exact ih h.2

theorem priorityOrElse_self (p : ℚ) : priorityOrElse (some p) p = p := by
  show (if p = 0 then p else p) = p
  split <;> rfl

/--
Against a single ledger record left by a higher-scoring kept element, the
overlap loop always skips a lower scorer (score gap above 2) that does
not win the near-identical-rect z-index override, leaving the ledger
unchanged.
-/
theorem overlapLoop_skips_lower (bElem aElem : Elem) (rB rA : Rect)
    (po ao : Option ℚ)
    (hpo : po = none ∨ po = some (getElementPriority aElem))
    (hov : max 0 (min rB.right rA.right - max rB.left rA.left) *
        max 0 (min rB.bottom rA.bottom - max rB.top rA.top) /
        min (rB.width * rB.height)
          ((rA.right - rA.left) * (rA.bottom - rA.top)) > 0.6)
    (hdiff : getElementPriority aElem - getElementPriority bElem > 2)
    (hz : zIndexGT bElem.core.zIndex aElem.core.zIndex = false) :
    overlapLoop bElem bElem.core.tagName rB (getElementPriority bElem)
        (rB.width * rB.height)
        [⟨rA.left, rA.top, rA.right, rA.bottom, some aElem, po, ao, false⟩] =
      (true, [⟨rA.left, rA.top, rA.right, rA.bottom, some aElem, po, ao, false⟩]) := by
  have hEP : priorityOrElse po (getElementPriority aElem) = getElementPriority aElem := by
    rcases hpo with h | h <;> subst h
    · rfl
    · exact priorityOrElse_self _
  have hox : ¬(max (0 : ℚ) (min rB.right rA.right - max rB.left rA.left) ≤ 0 ∨
      max (0 : ℚ) (min rB.bottom rA.bottom - max rB.top rA.top) ≤ 0) := by
    rintro (h | h)
    · rw [le_antisymm h (le_max_left _ _), zero_mul, zero_div] at hov
      norm_num at hov
    · rw [le_antisymm h (le_max_left _ _), mul_zero, zero_div] at hov
      norm_num at hov
  have hngt : ¬(getElementPriority bElem - getElementPriority aElem > 2) := by
    intro hgt
    linarith
  have hlt : getElementPriority bElem - getElementPriority aElem < -0.5 := by
    have h05 : (-0.5 : ℚ) > -2 := by norm_num
    linarith
  have hzc : ¬(zIndexGT bElem.core.zIndex aElem.core.zIndex = true) := by
    rw [hz]
    exact fun hk => Bool.noConfusion hk
  simp only [overlapLoop]
  rw [if_neg hox, if_pos hov, hEP]
  -- `split` discharges the z-index and priority-difference conditions from
  -- hzc, hngt and hlt in context; the remaining branches are definitional.
  split
  · split <;> rfl
  · rfl

/--
`isDuplicateInteractiveElement` skips a non-tiny lower scorer with no
interactive ancestor and no fast-path qualification, when the ledger
holds the overlapping record of a kept element scoring more than 2 above
it, and leaves the ledger unchanged.
-/
theorem isDuplicate_skips_lower (bElem aElem : Elem) (rB rA : Rect)
    (po ao : Option ℚ)
    (hpo : po = none ∨ po = some (getElementPriority aElem))
    (hw5 : 5 ≤ rB.width) (hh5 : 5 ≤ rB.height)
    (hBfast : isHighPriorityElement bElem rB (getElementPriority bElem) = false)
    (hanc : anyInteractiveAncestor bElem.ancestors = false)
    (hov : max 0 (min rB.right rA.right - max rB.left rA.left) *
        max 0 (min rB.bottom rA.bottom - max rB.top rA.top) /
        min (rB.width * rB.height)
          ((rA.right - rA.left) * (rA.bottom - rA.top)) > 0.6)
    (hdiff : getElementPriority aElem - getElementPriority bElem > 2)
    (hz : zIndexGT bElem.core.zIndex aElem.core.zIndex = false) :
    isDuplicateInteractiveElement bElem rB
        [⟨rA.left, rA.top, rA.right, rA.bottom, some aElem, po, ao, false⟩] =
      (true, [⟨rA.left, rA.top, rA.right, rA.bottom, some aElem, po, ao, false⟩]) := by
  have htiny : ¬(rB.width < 5 ∨ rB.height < 5) := by
    rintro (hlt | hlt)
    · exact absurd hlt (not_lt.2 hw5)
    · exact absurd hlt (not_lt.2 hh5)
  have hfastc : ¬(isHighPriorityElement bElem rB (getElementPriority bElem) = true) := by
    rw [hBfast]
    exact fun hk => Bool.noConfusion hk
  have hancc : ¬(ancestorDupCheck bElem.core.tagName (getElementPriority bElem)
      (rB.width * rB.height) rB (jsTrim bElem.core.textContent)
      bElem.ancestors = true) := by
    rw [ancestorDupCheck_no_interactive _ _ _ _ _ _ hanc]
    exact fun hk => Bool.noConfusion hk
  simp only [isDuplicateInteractiveElement]
  rw [if_neg htiny, if_neg hfastc, if_neg hancc]
  rw [overlapLoop_skips_lower bElem aElem rB rA po ao hpo hov hdiff hz]
  rfl

/--
Claim C2 (amended): for any two candidate sibling elements in one pass -
no interactive ancestor above them, both rects at least 5px in each
dimension - whose bounding rectangles overlap by more than 60% of the
smaller element's area and whose priority scores differ by more than 2,
the returned descriptor list contains exactly one descriptor for the
pair, namely the higher-scoring element, provided the higher scorer is
the one with the smaller area (it is processed first in the
area-ascending order), the lower scorer does not itself qualify for the
unconditional-keep fast path (score at least 12, or a
contenteditable/input/textarea/select box of at least 15×15px), and the
lower scorer does not win the near-identical-rect z-index override.
When the higher scorer is the larger element, or both take the fast
path, both descriptors appear.
-/
theorem overlap_higher_scorer_smaller_sole_survivor (win : Win) (exp : ℚ)
    (aElem bElem : Elem) (rA rB : Rect) (s : PassSt)
    (hWv : win.docScrollHeight ≤ win.innerHeight)
    (hWh : win.docScrollWidth ≤ win.innerWidth)
    (hsib : aElem.ancestors = bElem.ancestors)
    (hnia : anyInteractiveAncestor aElem.ancestors = false)
    (hvA : isInViewport win exp aElem = true)
    (hviA : isElementVisible aElem = true)
    (htA : isTopElement win aElem = true)
    (hiA : isInteractiveElement aElem = true)
    (hrA : aElem.core.rect = some rA)
    (hvB : isInViewport win exp bElem = true)
    (hviB : isElementVisible bElem = true)
    (htB : isTopElement win bElem = true)
    (hiB : isInteractiveElement bElem = true)
    (hrB : bElem.core.rect = some rB)
    (hwA : 5 ≤ rA.width) (hhA : 5 ≤ rA.height)
    (hwB : 5 ≤ rB.width) (hhB : 5 ≤ rB.height)
    (harea : rA.width * rA.height ≤ rB.width * rB.height)
    (hov : max 0 (min rB.right rA.right - max rB.left rA.left) *
        max 0 (min rB.bottom rA.bottom - max rB.top rA.top) /
        min (rB.width * rB.height)
          ((rA.right - rA.left) * (rA.bottom - rA.top)) > 0.6)
    (hdiff : getElementPriority aElem - getElementPriority bElem > 2)
    (hBfast : isHighPriorityElement bElem rB (getElementPriority bElem) = false)
    (hz : zIndexGT bElem.core.zIndex aElem.core.zIndex = false) :
    (findViewportInteractiveElements exp (siblingPairPage win aElem bElem) s).1 =
      [createElementData (mkCtx exp (siblingPairPage win aElem bElem)) aElem 0] := by
  have hWv' : ¬(win.innerHeight < win.docScrollHeight) := not_lt.2 hWv
  have hWh' : ¬(win.innerWidth < win.docScrollWidth) := not_lt.2 hWh
  set ctx := mkCtx exp (siblingPairPage win aElem bElem) with hctx
  have hfA : passesFilters ctx none aElem = some ⟨aElem, rA⟩ :=
    passesFilters_some ctx aElem rA hvA hviA htA hiA hrA
  have hfB : passesFilters ctx none bElem = some ⟨bElem, rB⟩ :=
    passesFilters_some ctx bElem rB hvB hviB htB hiB hrB
  have htinyA : ¬(rA.width < 5 ∨ rA.height < 5) := by
    rintro (hlt | hlt)
    · exact absurd hlt (not_lt.2 hwA)
    · exact absurd hlt (not_lt.2 hhA)
  have hniaB : anyInteractiveAncestor bElem.ancestors = false := hsib ▸ hnia
  obtain ⟨po, ao, hAdup, hpo⟩ : ∃ po ao,
      isDuplicateInteractiveElement aElem rA [] =
        (false, [⟨rA.left, rA.top, rA.right, rA.bottom, some aElem, po, ao, false⟩]) ∧
      (po = none ∨ po = some (getElementPriority aElem)) := by
    by_cases hAf : isHighPriorityElement aElem rA (getElementPriority aElem) = true
    · refine ⟨some (getElementPriority aElem), some (rA.width * rA.height), ?_, Or.inr rfl⟩
      simp only [isDuplicateInteractiveElement]
      rw [if_neg htinyA, if_pos hAf]
      simp
    · have hancA : ¬(ancestorDupCheck aElem.core.tagName (getElementPriority aElem)
          (rA.width * rA.height) rA (jsTrim aElem.core.textContent)
          aElem.ancestors = true) := by
        rw [ancestorDupCheck_no_interactive _ _ _ _ _ _ hnia]
        exact fun hk => Bool.noConfusion hk
      refine ⟨none, none, ?_, Or.inl rfl⟩
      simp only [isDuplicateInteractiveElement]
      rw [if_neg htinyA, if_neg hAf, if_neg hancA]
      simp [overlapLoop]
  have hBdup := isDuplicate_skips_lower bElem aElem rB rA po ao hpo hwB hhB
    hBfast hniaB hov hdiff hz
  have hcands : sortByArea
      ((siblingPairPage win aElem bElem).mainDoc.candidates.filterMap
        (passesFilters ctx none)) = [⟨aElem, rA⟩, ⟨bElem, rB⟩] := by
    simp only [siblingPairPage, List.filterMap_cons, List.filterMap_nil, hfA, hfB,
      sortByArea, List.foldl, insertByArea]
    rw [if_neg (not_lt.2 harea)]
  have hloop : dedupEmitLoop ctx none none [⟨aElem, rA⟩, ⟨bElem, rB⟩] ⟨0, []⟩ =
      ([createElementData ctx aElem 0],
        ⟨1, [⟨rA.left, rA.top, rA.right, rA.bottom, some aElem, po, ao, false⟩]⟩) := by
    simp [dedupEmitLoop, hAdup, hBdup, iframeTagData, shadowTagData]
  have hcw : ctx.win = win := rfl
  have hmv : ¬((win.docScrollHeight > win.innerHeight : Bool) = true ∧
      win.innerWidth - win.docClientWidth ≥ 0) := by
    rintro ⟨hk, -⟩
    rw [decide_eq_true_eq] at hk
    exact hWv' hk
  have hmh : ¬((win.docScrollWidth > win.innerWidth : Bool) = true ∧
      win.innerHeight - win.docClientHeight ≥ 0) := by
    rintro ⟨hk, -⟩
    rw [decide_eq_true_eq] at hk
    exact hWh' hk
  simp only [findViewportInteractiveElements]
  rw [← hctx]
  simp only [processElementsInDocument]
  rw [hcands, hloop]
  simp only [processHiddenFileInputs, processShadowDOMElements, processIframes,
    findScrollableElements, siblingPairPage, findMainBrowserScrollbars, hcw]
  rw [if_neg hmv, if_neg hmh]
  simp

/--
Witness for the amended C2: the concrete mirrored pair - a 40×40 `<a>`
scoring 107/10 fully inside a 100×100 pointer-cursor `<div>` scoring
71/10 - yields exactly the single descriptor of the higher-scoring `<a>`.
-/
theorem overlap_higher_scorer_smaller_sole_survivor_witness :
    (findViewportInteractiveElements 0
        (siblingPairPage {} smallHighScorer largeLowScorer) {}).1 =
      [createElementData (mkCtx 0 (siblingPairPage {} smallHighScorer largeLowScorer))
        smallHighScorer 0] :=
  overlap_higher_scorer_smaller_sole_survivor {} 0 smallHighScorer largeLowScorer
    ⟨0, 0, 40, 40⟩ ⟨0, 0, 100, 100⟩ {} (by decide) (by decide) (by decide)
    (by decide) (by decide) (by decide) (by decide) (by decide) (by decide)
    (by decide) (by decide) (by decide) (by decide) (by decide) (by decide)
    (by decide) (by decide) (by decide) (by decide) (by decide) (by decide)
    (by decide) (by decide)

/--
Counterexample to claim C3 as stated: with `viewportExpansion = -1`, a
visible, interactive button whose rect lies below the window (top 1000 in
a 600px-high viewport) passes `isInViewport` but is excluded from the
output, because `isTopElement` independently requires the rect to meet
the actual window area.
-/
theorem expansion_minus_one_offscreen_excluded :
    isElementVisible offscreenButton = true ∧
      isInteractiveElement offscreenButton = true ∧
      isInViewport offscreenButtonPage.win (-1) offscreenButton = true ∧
      isTopElement offscreenButtonPage.win offscreenButton = false ∧
      (findViewportInteractiveElements (-1) offscreenButtonPage {}).1 = [] := by
  decide

/--
Claim C3 (amended): `viewportExpansion = -1` makes `isInViewport` return
`true` for every node, so the viewport-membership filter excludes
nothing; however a node whose rectangle lies wholly below the window is
still excluded by `isTopElement`'s window-bounds check.
-/
theorem expansion_minus_one_viewport_filter_passes_all (win : Win) (q : ℚ)
    (e : Elem) (hq : q = -1) :
    isInViewport win q e = true ∧
      (∀ r : Rect, e.core.rect = some r → win.innerHeight < r.top →
        isTopElement win e = false) := by
  constructor
  · unfold isInViewport
    rw [if_pos hq]
  · intro r hr htop
    unfold isTopElement
    rw [hr]
    have h1 : ¬(r.top < win.innerHeight) := not_lt.2 (le_of_lt htop)
    simp [h1]

/--
Witness for the amended C3: the off-screen button passes the `-1`
viewport filter yet fails the topmost test.
-/
theorem expansion_minus_one_viewport_filter_passes_all_witness :
    isInViewport offscreenButtonPage.win (-1) offscreenButton = true ∧
      isTopElement offscreenButtonPage.win offscreenButton = false := by
  obtain ⟨h1, h2⟩ := expansion_minus_one_viewport_filter_passes_all
    offscreenButtonPage.win (-1) offscreenButton rfl
  exact ⟨h1, h2 ⟨0, 1000, 50, 50⟩ rfl (by decide)⟩

/--
Counterexample to claim C5 as stated: with a cache last actually cleared
at time 0, a `clearCache(false)` call at 20000 refreshes the timestamp
without clearing; a further call at 40000 - at least 30000 ms after the
last clear - still does not reset the maps, because the code compares
against the refreshed timestamp of the previous call (and requires
strictly more than 30000 ms).
-/
theorem clearCache_since_last_clear_not_reset :
    (clearCache populatedCache false 800 600 20000).2 = false ∧
      ((40000 : Int) - 0 ≥ 30000) ∧
      (clearCache (clearCache populatedCache false 800 600 20000).1 false 800 600
        40000).1.boundingRects = [(0, ⟨1, 2, 3, 4⟩)] := by
  decide

/--
Claim C5 (amended): `DOM_CACHE.clearCache(force)` resets both cache maps
if and only if `force` is true, or the viewport width or height changed,
or strictly more than 30000 ms elapsed since the previous `clearCache`
call (whose timestamp refresh happens even without clearing); in every
other case it leaves both maps (and the remembered viewport size)
unchanged and only refreshes the timestamp.
-/
theorem clearCache_reset_characterization (c : DomCache) (force : Bool)
    (w h : ℚ) (now : Int) :
    ((clearCache c force w h now).2 = true ↔
      (force = true ∨ w ≠ c.previousWindowW ∨ h ≠ c.previousWindowH ∨
        now - c.lastRunTimestamp > 30000)) ∧
    ((clearCache c force w h now).2 = true →
      (clearCache c force w h now).1 = ⟨[], [], w, h, now⟩) ∧
    ((clearCache c force w h now).2 = false →
      (clearCache c force w h now).1 = { c with lastRunTimestamp := now }) := by
  unfold clearCache
  split
  · rename_i hcond
    exact ⟨⟨fun _ => hcond, fun _ => rfl⟩, fun _ => rfl, fun hf => absurd hf (by simp)⟩
  · rename_i hcond
    exact ⟨⟨fun ht => absurd ht (by simp), fun hc => absurd hc hcond⟩,
      fun ht => absurd ht (by simp), fun _ => rfl⟩

/--
Witness for the amended C5: a forced-free call 40001 ms after the
previous one resets both maps and stores the new size and timestamp.
-/
theorem clearCache_reset_characterization_witness :
    (clearCache populatedCache false 800 600 40001).1 = ⟨[], [], 800, 600, 40001⟩ :=
  (clearCache_reset_characterization populatedCache false 800 600 40001).2.1
    (by decide)

/-- The page holding a single cross-origin iframe over an arbitrary inner document. -/
def crossOriginPage (win : Win) (fe : Elem) (innerPart : DocPart) : Page :=
  { win := win,
    iframes := [{ elem := fe, accessThrows := true, inner := some innerPart }] }

/--
Claim C4: for every iframe that is in the viewport and visible, whose
inner document is inaccessible (the cross-origin access throws), and
which passes the interactivity classifier, the pass result contains
exactly one descriptor for that iframe flagged cross-domain, and contains
no descriptor for any node inside that iframe (the inner document
`innerPart` is arbitrary and contributes nothing).
-/
theorem cross_origin_iframe_single_descriptor (win : Win) (exp : ℚ)
    (fe : Elem) (innerPart : DocPart)
    (hvs : win.docScrollHeight ≤ win.innerHeight)
    (hhs : win.docScrollWidth ≤ win.innerWidth)
    (h1 : isInViewport win exp fe = true)
    (h2 : isElementVisible fe = true)
    (h3 : isInteractiveElement fe = true) :
    (findViewportInteractiveElements exp (crossOriginPage win fe innerPart) {}).1.map
      (fun d => (d.crossDomain, d.isIframe)) = [(true, true)] := by
  have hv' : ¬(win.innerHeight < win.docScrollHeight) := not_lt.2 hvs
  have hh' : ¬(win.innerWidth < win.docScrollWidth) := not_lt.2 hhs
  simp only [findViewportInteractiveElements, crossOriginPage, mkCtx,
    processElementsInDocument, processHiddenFileInputs, processShadowDOMElements,
    sortByArea, List.filterMap, List.foldl, dedupEmitLoop,
    processIframes, findScrollableElements, findMainBrowserScrollbars]
  simp [h1, h2, h3, hv', hh']

/--
Witness for C4: a visible, pointer-cursor iframe at (10,10) with a
throwing inner document containing a button yields exactly one
cross-domain descriptor.
-/
theorem cross_origin_iframe_single_descriptor_witness :
    (findViewportInteractiveElements 0
      (crossOriginPage {} crossOriginIframe { candidates := [crossOriginInnerButton] })
      {}).1.map (fun d => (d.crossDomain, d.isIframe)) = [(true, true)] :=
  cross_origin_iframe_single_descriptor {} 0 crossOriginIframe
    { candidates := [crossOriginInnerButton] }
    (by decide) (by decide) (by decide) (by decide) (by decide)

/--
Counterexample to claim C9 as stated: a fully visible, topmost,
in-viewport scrollable element with `scrollHeight` 2000, `clientHeight`
400 and `overflow-y: auto`, but with a zero-width (overlay-style)
scrollbar gutter (`offsetWidth = clientWidth`), yields no scroll-region
descriptor at all: the scan skips elements whose scrollbar gutter is
thinner than 1px.
-/
theorem overlay_scroll_region_not_reported :
    overlayScrollRegion.core.scrollHeight = 2000 ∧
      overlayScrollRegion.core.clientHeight = 400 ∧
      overlayScrollRegion.core.overflowY = "auto" ∧
      isElementVisible overlayScrollRegion = true ∧
      isTopElement ({} : Win) overlayScrollRegion = true ∧
      isInViewport ({} : Win) 0 overlayScrollRegion = true ∧
      (findScrollableElements (mkCtx 0 {}) [overlayScrollRegion] {}).1 = [] := by
  decide

/--
Claim C9 (amended): a fully visible, topmost scrollable element with
`scrollHeight` 2000, `clientHeight` 400 and computed `overflow-y: auto`,
whose scrollbar gutter is at least 1px wide
(`offsetWidth - clientWidth ≥ 1`, with a ≥10px client box and no
horizontal overflow), yields exactly one scroll-region descriptor, and
that descriptor's `scrollData.maxScrollTop` equals 1600 (scrollHeight
minus clientHeight).
-/
theorem scroll_region_max_scroll_top (ctx : Ctx) (e : Elem) (r : Rect) (i : Nat)
    (h1 : isInViewport ctx.win ctx.viewportExpansion e = true)
    (h2 : isElementVisible e = true)
    (hcw : 10 ≤ e.core.clientWidth)
    (hch : e.core.clientHeight = 400)
    (hsh : e.core.scrollHeight = 2000)
    (hoy : e.core.overflowY = "auto")
    (hnoh : e.core.scrollWidth ≤ e.core.clientWidth)
    (htop : isTopElement ctx.win e = true)
    (hsb : 1 ≤ e.core.offsetWidth - e.core.clientWidth)
    (hrect : e.core.rect = some r) :
    (findScrollableElements ctx [e] ⟨i, []⟩).1.map
      (fun d => d.scrollData.map ScrollData.maxScrollTop) = [some 1600] := by
  have hnv : ¬(isInViewport ctx.win ctx.viewportExpansion e = false ∨
      isElementVisible e = false) := by
    rw [h1, h2]
    rintro (h | h) <;> exact Bool.noConfusion h
  have hsize : ¬(e.core.clientWidth < 10 ∨ e.core.clientHeight < 10) := by
    rw [hch]
    rintro (h | h)
    · exact absurd h (not_lt.2 hcw)
    · norm_num at h
  have hVtrue : ((e.core.scrollHeight > e.core.clientHeight : Bool) &&
      (e.core.overflow = "scroll" ∨ e.core.overflow = "auto" ∨
        e.core.overflowY = "scroll" ∨ e.core.overflowY = "auto" : Bool)) = true := by
    rw [hch, hsh, hoy]
    simp
    norm_num
  have hHfalse : ((e.core.scrollWidth > e.core.clientWidth : Bool) &&
      (e.core.overflow = "scroll" ∨ e.core.overflow = "auto" ∨
        e.core.overflowX = "scroll" ∨ e.core.overflowX = "auto" : Bool)) = false := by
    have : ¬(e.core.clientWidth < e.core.scrollWidth) := not_lt.2 hnoh
    simp [this]
  have hsb' : ¬(e.core.offsetWidth - e.core.clientWidth < 1) := not_lt.2 hsb
  simp only [findScrollableElements, hVtrue, hHfalse]
  rw [if_neg hnv, if_neg hsize,
    if_neg (by rintro ⟨h, -⟩; exact Bool.noConfusion h),
    if_neg (by rw [htop]; exact fun h => Bool.noConfusion h)]
  rw [if_neg (by rintro (⟨-, h⟩ | ⟨h, -⟩)
                 · exact absurd h hsb'
                 · exact Bool.noConfusion h)]
  rw [hrect]
  simp only [scrollbarDupLoop]
  rw [if_neg (fun h => Bool.noConfusion h)]
  simp only [List.map_cons, List.map_nil, findScrollableElements,
    scrollRegionData, Option.map_some']
  rw [hch, hsh]
  norm_num

/--
Witness for the amended C9: the concrete 315×400 region with a 15px
gutter yields exactly one descriptor with `maxScrollTop = 1600`.
-/
theorem scroll_region_max_scroll_top_witness :
    (findScrollableElements (mkCtx 0 {}) [scrollRegion] ⟨0, []⟩).1.map
      (fun d => d.scrollData.map ScrollData.maxScrollTop) = [some 1600] :=
  scroll_region_max_scroll_top (mkCtx 0 {}) scrollRegion ⟨0, 0, 315, 400⟩ 0
    (by decide) (by decide) (by decide) (by decide) (by decide) (by decide)
    (by decide) (by decide) (by decide) (by decide)

end Crawl
